import Mathlib

/-!
# CIFAR-10 example driver (`arm_nnexamples_cifar10.c`)

A shallow embedding of `main`: the bitmap decoder reading standard input, the
stride-3 channel swap, the per-channel quantizer, the fixed chain of calls into
the CMSIS-NN kernels and the score printer.

Bytes are natural numbers, `int` values are integers, `uint32_t` arithmetic is
reduced modulo `2^32`, and standard input is the list of bytes still to come.
-/

namespace Cifar10

/-! ## Machine integers -/

/-- Conversion of a value to `int` (two's complement, 32 bits). -/
def toInt32 (n : Int) : Int := (n + 2147483648) % 4294967296 - 2147483648

/-- Conversion of a value to `uint32_t`. -/
def toUInt32 (n : Int) : Nat := (n % 4294967296).toNat

/-! ## Compile-time geometry -/

/-- Modelled from the spec: `CONV1_IM_CH` of the absent header
`arm_nnexamples_cifar10_parameter.h`; the image geometry is 32×32×3. -/
def CONV1_IM_CH : Nat := 3

/-- Modelled from the spec: `CONV1_IM_DIM` of the absent header
`arm_nnexamples_cifar10_parameter.h`; the image geometry is 32×32×3. -/
def CONV1_IM_DIM : Nat := 32

/-- Number of elements of `image_data`. -/
def IMAGE_BYTES : Nat := CONV1_IM_CH * CONV1_IM_DIM * CONV1_IM_DIM

/-- The value of `sizeof(BITMAPFILEHEADER)` under `#pragma pack(push, 1)`. -/
def sizeofBITMAPFILEHEADER : Nat := 2 + 4 + 2 + 2 + 4

/-- Initial contents of the global `image_data` (`= { 0 }`). -/
def image_data0 : List Nat := List.replicate IMAGE_BYTES 0

/-! ## Standard input and buffers -/

/-- The bytes one `read(STDIN_FILENO, buf, count)` delivers when `pos` bytes of the
stream have been consumed: `min count remaining` of them. -/
def read (stdin : List Nat) (pos count : Nat) : List Nat := (stdin.drop pos).take count

/-- The contents of an object of `cap` bytes after `data` was stored from its first
byte on; bytes beyond `cap` land outside the object. -/
def store (cap : Nat) (buf data : List Nat) : List Nat :=
  (data ++ buf.drop data.length).take cap

/-- Field `bfType[0]` of the header object. -/
def bfType0 (hdr : List Nat) : Nat := hdr.getD 0 0

/-- Field `bfType[1]` of the header object. -/
def bfType1 (hdr : List Nat) : Nat := hdr.getD 1 0

/-- Field `bfOffBits` of the header object: bytes 10..13, little-endian. -/
def bfOffBits (hdr : List Nat) : Nat :=
  hdr.getD 10 0 % 256 + 256 * (hdr.getD 11 0 % 256) + 65536 * (hdr.getD 12 0 % 256)
    + 16777216 * (hdr.getD 13 0 % 256)

/-! ## Bitmap decoder (source lines 172-207) -/

/-- The `return` through which the decoder leaves `main`, or `accepted` when control
falls through to the swap loop. -/
inductive Exit
  | headerRead
  | magic
  | skipRead
  | offsetMismatch
  | pixelRead
  | accepted
  deriving DecidableEq, Repr

/-- State of `main` when the decoder is left. -/
structure Decoded where
  /-- Which way the decoder was left. -/
  exit : Exit
  /-- Bytes taken from standard input so far. -/
  consumed : Nat
  /-- Bytes taken from standard input when the pixel read was issued, if it was. -/
  atPixelRead : Option Nat
  /-- Value of `rc` (the return value of the last `read`). -/
  rc : Int
  /-- Value of `cursor`. -/
  cursor : Nat
  /-- Contents of `image_data`. -/
  image_data : List Nat
  /-- Number of bytes the skip read stored at `image_data`. -/
  skipStored : Nat
  deriving DecidableEq, Repr

/-- Lines 172-207 of `main`. `hdr0` is what the uninitialised local `hdr` holds on
entry. -/
def decode (stdin hdr0 : List Nat) : Decoded :=
  let cursor : Nat := 0
  -- Read the Header
  let got := read stdin 0 sizeofBITMAPFILEHEADER
  let hdr := store sizeofBITMAPFILEHEADER hdr0 got
  let rc := toInt32 got.length
  let cursor := toUInt32 (cursor + rc)
  if rc ≤ 0 then
    { exit := .headerRead, consumed := got.length, atPixelRead := none, rc := rc,
      cursor := cursor, image_data := image_data0, skipStored := 0 }
  -- Validate Magic
  else if bfType0 hdr ≠ 66 ∨ bfType1 hdr ≠ 77 then
    { exit := .magic, consumed := got.length, atPixelRead := none, rc := rc,
      cursor := cursor, image_data := image_data0, skipStored := 0 }
  else
    -- Advance to image data based on offset
    let skipped := read stdin got.length (toUInt32 ((bfOffBits hdr : Int) - cursor))
    let image1 := store IMAGE_BYTES image_data0 skipped
    let pos := got.length + skipped.length
    let rc := toInt32 skipped.length
    if rc ≤ 0 then
      { exit := .skipRead, consumed := pos, atPixelRead := none, rc := rc,
        cursor := cursor, image_data := image1, skipStored := skipped.length }
    else
      let cursor := toUInt32 (cursor + rc)
      if cursor ≠ bfOffBits hdr then
        { exit := .offsetMismatch, consumed := pos, atPixelRead := none, rc := rc,
          cursor := cursor, image_data := image1, skipStored := skipped.length }
      else
        -- Read Image Data
        let pixels := read stdin pos IMAGE_BYTES
        let image2 := store IMAGE_BYTES image1 pixels
        let rc := toInt32 pixels.length
        if rc ≤ 0 then
          { exit := .pixelRead, consumed := pos + pixels.length, atPixelRead := some pos,
            rc := rc, cursor := cursor, image_data := image2,
            skipStored := skipped.length }
        else
          { exit := .accepted, consumed := pos + pixels.length, atPixelRead := some pos,
            rc := rc, cursor := cursor, image_data := image2,
            skipStored := skipped.length }

/-! ### Abbreviations for the two later reads -/

/-- What the skip read delivers after a complete header. -/
def skipBytes (stdin : List Nat) : List Nat :=
  read stdin 14 (toUInt32 ((bfOffBits stdin : Int) - 14))

/-- What the pixel read delivers after a complete header and the skip. -/
def pixelBytes (stdin : List Nat) : List Nat :=
  read stdin (14 + (skipBytes stdin).length) IMAGE_BYTES


/-! ## Channel swap (source lines 211-217) -/

/-- One iteration of the swap loop: `tmp = a[i]; a[i] = a[i + 2]; a[i + 2] = tmp`. -/
def swapStep (a : List Nat) (i : Nat) : List Nat :=
  let tmp := a.getD i 0
  let a1 := a.set i (a.getD (i + 2) 0)
  a1.set (i + 2) tmp

/-- The loop `for (int i = 0; i < rc; i += 3)`, entered at index `i`; `fuel` bounds the
number of iterations still allowed. -/
def swapLoop (rc : Int) : Nat → Nat → List Nat → List Nat
  | 0, _, a => a
  | fuel + 1, i, a => if (i : Int) < rc then swapLoop rc fuel (i + 3) (swapStep a i) else a

/-- The swap loop as `main` runs it: from index 0, with one unit of fuel for every
index below `rc`. -/
def swapChannels (rc : Int) (a : List Nat) : List Nat := swapLoop rc rc.toNat 0 a

/-! ## Quantizer (source lines 223-238) -/

/-- Modelled from the spec: the CMSIS intrinsic `__SSAT(x, 8)`, which clamps to the
signed 8-bit range; its definition is not part of this repository. -/
def SSAT8 (x : Int) : Int := if x > 127 then 127 else if x < -128 then -128 else x

/-- Conversion of a value to `q7_t` (two's complement, 8 bits). -/
def toInt8 (n : Int) : Int := (n + 128) % 256 - 128

/-- The expression `x << k` on `int`. -/
def shl32 (x : Int) (k : Nat) : Int := toInt32 (x * 2 ^ k)

/-- The expression `x >> k` on `int` (arithmetic shift). -/
def sar32 (x : Int) (k : Nat) : Int := x >>> k

/-- The expression stored for one channel:
`(q7_t)__SSAT((((int)raw - mean) << 7) + (0x1 << (scale - 1))) >> scale, 8)`. -/
def quantize (raw : Nat) (mean : Int) (scale : Nat) : Int :=
  toInt8 (SSAT8 (sar32
    (toInt32 (shl32 (toInt32 ((raw : Int) - mean)) 7 + shl32 1 (toUInt32 ((scale : Int) - 1))))
    scale))

/-- Offset of `img_buffer1` in `scratch_buffer`. -/
def img_buffer1 : Nat := 0

/-- Offset of `img_buffer2` in `scratch_buffer`: `img_buffer1 + 32 * 32 * 32`. -/
def img_buffer2 : Nat := img_buffer1 + 32 * 32 * 32

/-- Number of elements of `scratch_buffer`. -/
def SCRATCH_BYTES : Nat := 32 * 32 * 10 * 4

/-- Number of elements of `col_buffer`. -/
def COL_BYTES : Nat := 2 * 5 * 5 * 32 * 2

/-- Body of the pre-processing loop at index `i`: three stores through `img_buffer2`. -/
def quantStep (image : List Nat) (mean_data : Fin 3 → Int) (scale_data : Fin 3 → Nat)
    (scratch : List Int) (i : Nat) : List Int :=
  let s0 := scratch.set (img_buffer2 + i)
    (quantize (image.getD i 0) (mean_data 0) (scale_data 0))
  let s1 := s0.set (img_buffer2 + (i + 1))
    (quantize (image.getD (i + 1) 0) (mean_data 1) (scale_data 1))
  s1.set (img_buffer2 + (i + 2))
    (quantize (image.getD (i + 2) 0) (mean_data 2) (scale_data 2))

/-- The loop `for (int i = 0; i < 32 * 32 * 3; i += 3)`, entered at index `i`. -/
def quantLoop (image : List Nat) (mean_data : Fin 3 → Int) (scale_data : Fin 3 → Nat) :
    Nat → Nat → List Int → List Int
  | 0, _, scratch => scratch
  | fuel + 1, i, scratch =>
    if i < 32 * 32 * 3 then
      quantLoop image mean_data scale_data fuel (i + 3)
        (quantStep image mean_data scale_data scratch i)
    else scratch

/-- The pre-processing loop as `main` runs it. -/
def preprocess (image : List Nat) (mean_data : Fin 3 → Int) (scale_data : Fin 3 → Nat)
    (scratch : List Int) : List Int :=
  quantLoop image mean_data scale_data (32 * 32 * 3) 0 scratch

/-! ## Layer configuration and kernel calls (source lines 240-276) -/

/-- The macros of the absent headers `arm_nnexamples_cifar10_parameter.h` and
`arm_nnexamples_cifar10_inputs.h` that `main` uses, other than the image geometry. -/
structure Params where
  CONV1_OUT_CH : Nat
  CONV1_KER_DIM : Nat
  CONV1_PADDING : Nat
  CONV1_STRIDE : Nat
  CONV1_BIAS_LSHIFT : Nat
  CONV1_OUT_RSHIFT : Nat
  CONV1_OUT_DIM : Nat
  POOL1_KER_DIM : Nat
  POOL1_PADDING : Nat
  POOL1_STRIDE : Nat
  POOL1_OUT_DIM : Nat
  CONV2_IM_DIM : Nat
  CONV2_IM_CH : Nat
  CONV2_OUT_CH : Nat
  CONV2_KER_DIM : Nat
  CONV2_PADDING : Nat
  CONV2_STRIDE : Nat
  CONV2_BIAS_LSHIFT : Nat
  CONV2_OUT_RSHIFT : Nat
  CONV2_OUT_DIM : Nat
  POOL2_KER_DIM : Nat
  POOL2_PADDING : Nat
  POOL2_STRIDE : Nat
  POOL2_OUT_DIM : Nat
  CONV3_IM_DIM : Nat
  CONV3_IM_CH : Nat
  CONV3_OUT_CH : Nat
  CONV3_KER_DIM : Nat
  CONV3_PADDING : Nat
  CONV3_STRIDE : Nat
  CONV3_BIAS_LSHIFT : Nat
  CONV3_OUT_RSHIFT : Nat
  CONV3_OUT_DIM : Nat
  POOL3_KER_DIM : Nat
  POOL3_PADDING : Nat
  POOL3_STRIDE : Nat
  POOL3_OUT_DIM : Nat
  IP1_DIM : Nat
  IP1_OUT : Nat
  IP1_BIAS_LSHIFT : Nat
  IP1_OUT_RSHIFT : Nat
  INPUT_MEAN_SHIFT : Fin 3 → Int
  INPUT_RIGHT_SHIFT : Fin 3 → Nat

/-- The pointer values `main` passes to the kernels. -/
inductive Ptr
  | NULL
  /-- An address inside `scratch_buffer`, by element offset. -/
  | scratch (offset : Nat)
  | col_buffer
  | output_data
  | conv1_wt
  | conv1_bias
  | conv2_wt
  | conv2_bias
  | conv3_wt
  | conv3_bias
  | ip1_wt
  | ip1_bias
  deriving DecidableEq, Repr

/-- One call into the CMSIS-NN library with its arguments in source order. -/
inductive Call
  | arm_convolve_HWC_q7_RGB (Im_in : Ptr) (dim_im_in ch_im_in : Nat) (wt : Ptr)
      (ch_im_out dim_kernel padding stride : Nat) (bias : Ptr) (bias_shift out_shift : Nat)
      (Im_out : Ptr) (dim_im_out : Nat) (bufferA bufferB : Ptr)
  | arm_convolve_HWC_q7_fast (Im_in : Ptr) (dim_im_in ch_im_in : Nat) (wt : Ptr)
      (ch_im_out dim_kernel padding stride : Nat) (bias : Ptr) (bias_shift out_shift : Nat)
      (Im_out : Ptr) (dim_im_out : Nat) (bufferA bufferB : Ptr)
  | arm_relu_q7 (data : Ptr) (size : Nat)
  | arm_maxpool_q7_HWC (Im_in : Ptr) (dim_im_in ch_im_in dim_kernel padding stride
      dim_im_out : Nat) (bufferA Im_out : Ptr)
  | arm_fully_connected_q7_opt (pV pM : Ptr) (dim_vec num_of_rows bias_shift
      out_shift : Nat) (bias pOut vec_buffer : Ptr)
  | arm_softmax_q7 (vec_in : Ptr) (dim_vec : Nat) (p_out : Ptr)
  deriving DecidableEq, Repr

/-- The kind of network stage a call performs. -/
inductive Stage
  | conv
  | relu
  | maxpool
  | fullyConnected
  | softmax
  deriving DecidableEq, Repr

/-- Stage kind of a call. -/
def Call.stage : Call → Stage
  | .arm_convolve_HWC_q7_RGB .. => .conv
  | .arm_convolve_HWC_q7_fast .. => .conv
  | .arm_relu_q7 .. => .relu
  | .arm_maxpool_q7_HWC .. => .maxpool
  | .arm_fully_connected_q7_opt .. => .fullyConnected
  | .arm_softmax_q7 .. => .softmax

/-- The statements of source lines 240-276, in order. -/
def pipeline (P : Params) : List Call :=
  [ -- conv1 img_buffer2 -> img_buffer1
    .arm_convolve_HWC_q7_RGB (.scratch img_buffer2) CONV1_IM_DIM CONV1_IM_CH .conv1_wt
      P.CONV1_OUT_CH P.CONV1_KER_DIM P.CONV1_PADDING P.CONV1_STRIDE .conv1_bias
      P.CONV1_BIAS_LSHIFT P.CONV1_OUT_RSHIFT (.scratch img_buffer1) P.CONV1_OUT_DIM
      .col_buffer .NULL,
    .arm_relu_q7 (.scratch img_buffer1) (P.CONV1_OUT_DIM * P.CONV1_OUT_DIM * P.CONV1_OUT_CH),
    -- pool1 img_buffer1 -> img_buffer2
    .arm_maxpool_q7_HWC (.scratch img_buffer1) P.CONV1_OUT_DIM P.CONV1_OUT_CH P.POOL1_KER_DIM
      P.POOL1_PADDING P.POOL1_STRIDE P.POOL1_OUT_DIM .NULL (.scratch img_buffer2),
    -- conv2 img_buffer2 -> img_buffer1
    .arm_convolve_HWC_q7_fast (.scratch img_buffer2) P.CONV2_IM_DIM P.CONV2_IM_CH .conv2_wt
      P.CONV2_OUT_CH P.CONV2_KER_DIM P.CONV2_PADDING P.CONV2_STRIDE .conv2_bias
      P.CONV2_BIAS_LSHIFT P.CONV2_OUT_RSHIFT (.scratch img_buffer1) P.CONV2_OUT_DIM
      .col_buffer .NULL,
    .arm_relu_q7 (.scratch img_buffer1) (P.CONV2_OUT_DIM * P.CONV2_OUT_DIM * P.CONV2_OUT_CH),
    -- pool2 img_buffer1 -> img_buffer2
    .arm_maxpool_q7_HWC (.scratch img_buffer1) P.CONV2_OUT_DIM P.CONV2_OUT_CH P.POOL2_KER_DIM
      P.POOL2_PADDING P.POOL2_STRIDE P.POOL2_OUT_DIM .col_buffer (.scratch img_buffer2),
    -- conv3 img_buffer2 -> img_buffer1
    .arm_convolve_HWC_q7_fast (.scratch img_buffer2) P.CONV3_IM_DIM P.CONV3_IM_CH .conv3_wt
      P.CONV3_OUT_CH P.CONV3_KER_DIM P.CONV3_PADDING P.CONV3_STRIDE .conv3_bias
      P.CONV3_BIAS_LSHIFT P.CONV3_OUT_RSHIFT (.scratch img_buffer1) P.CONV3_OUT_DIM
      .col_buffer .NULL,
    .arm_relu_q7 (.scratch img_buffer1) (P.CONV3_OUT_DIM * P.CONV3_OUT_DIM * P.CONV3_OUT_CH),
    -- pool3 img_buffer-> img_buffer2
    .arm_maxpool_q7_HWC (.scratch img_buffer1) P.CONV3_OUT_DIM P.CONV3_OUT_CH P.POOL3_KER_DIM
      P.POOL3_PADDING P.POOL3_STRIDE P.POOL3_OUT_DIM .col_buffer (.scratch img_buffer2),
    .arm_fully_connected_q7_opt (.scratch img_buffer2) .ip1_wt P.IP1_DIM P.IP1_OUT
      P.IP1_BIAS_LSHIFT P.IP1_OUT_RSHIFT .ip1_bias .output_data (.scratch img_buffer1),
    .arm_softmax_q7 .output_data 10 .output_data ]

/-- The global buffers the kernels work on. -/
structure Memory where
  scratch_buffer : List Int
  col_buffer : List Int
  output_data : List Int
  deriving DecidableEq, Repr

/-- The effect of the library calls on the buffers; the library is external to this
repository, so its behaviour is a parameter. -/
abbrev Kernels := Call → Memory → Memory

/-- Running a sequence of calls: the memory afterwards and the calls made, in order. -/
def runCalls (K : Kernels) : List Call → Memory → List Call → Memory × List Call
  | [], m, trace => (m, trace)
  | c :: cs, m, trace => runCalls K cs (K c m) (trace ++ [c])

/-! ## Score output (source lines 281-287) -/

/-- The label table. -/
def CIFAR10_CLASSES : List String :=
  ["airplane", "automobile", "bird", "cat", "deer", "dog", "frog", "horse", "ship", "truck"]

/-- What `printf("%s: %d\n", CIFAR10_CLASSES[i], output_data[i])` writes. -/
def printfLine (output_data : List Int) (i : Nat) : String :=
  CIFAR10_CLASSES.getD i "" ++ ": " ++ toString (output_data.getD i 0) ++ "\n"

/-- The loop `for (int i = 0; i < 10; i++)`, entered at index `i`, appending to what
standard output already holds. -/
def printLoop (output_data : List Int) : Nat → Nat → List String → List String
  | 0, _, out => out
  | fuel + 1, i, out =>
    if i < 10 then printLoop output_data fuel (i + 1) (out ++ [printfLine output_data i])
    else out

/-! ## The program -/

/-- What one run of `main` leaves behind. -/
structure Run where
  /-- State at the end of the decoder. -/
  decoded : Decoded
  /-- Number of `perror` messages written to standard error. -/
  perrors : Nat
  /-- Library calls made, in order. -/
  calls : List Call
  /-- Buffers before the first library call. -/
  input : Memory
  /-- Buffers after the last library call. -/
  afterCalls : Memory
  /-- Buffers when `main` returns. -/
  memory : Memory
  /-- Contents of `image_data` when `main` returns. -/
  image_data : List Nat
  /-- Standard output, one entry per `printf`. -/
  stdout : List String
  /-- Return value of `main`. -/
  ret : Int

/-- Initial contents of the zero-initialised globals. -/
def memory0 (P : Params) : Memory :=
  { scratch_buffer := List.replicate SCRATCH_BYTES 0,
    col_buffer := List.replicate COL_BYTES 0,
    output_data := List.replicate P.IP1_OUT 0 }

/-- The function `main`. -/
def main (K : Kernels) (P : Params) (stdin hdr0 : List Nat) : Run :=
  let d := decode stdin hdr0
  if d.exit ≠ Exit.accepted then
    -- perror("invalid input"); return 0;
    { decoded := d, perrors := 1, calls := [], input := memory0 P, afterCalls := memory0 P,
      memory := memory0 P, image_data := d.image_data, stdout := [], ret := 0 }
  else
    -- flip the order of every 3 bytes
    let image := swapChannels d.rc d.image_data
    -- input pre-processing
    let m0 : Memory :=
      { memory0 P with
        scratch_buffer :=
          preprocess image P.INPUT_MEAN_SHIFT P.INPUT_RIGHT_SHIFT (memory0 P).scratch_buffer }
    let r := runCalls K (pipeline P) m0 []
    { decoded := d, perrors := 0, calls := r.2, input := m0, afterCalls := r.1,
      memory := r.1, image_data := image,
      stdout := printLoop r.1.output_data 10 0 [], ret := 0 }

/-! ## Workspace accounting -/

/-- The buffer a call receives as workspace (`bufferA`, or `vec_buffer` for the
fully-connected kernel); `NULL` for the kernels that take none. -/
def Call.workspace : Call → Ptr
  | .arm_convolve_HWC_q7_RGB _ _ _ _ _ _ _ _ _ _ _ _ _ bufferA _ => bufferA
  | .arm_convolve_HWC_q7_fast _ _ _ _ _ _ _ _ _ _ _ _ _ bufferA _ => bufferA
  | .arm_relu_q7 .. => .NULL
  | .arm_maxpool_q7_HWC _ _ _ _ _ _ _ bufferA _ => bufferA
  | .arm_fully_connected_q7_opt _ _ _ _ _ _ _ _ vec_buffer => vec_buffer
  | .arm_softmax_q7 .. => .NULL

/-- Modelled from the spec: the workspace, in bytes, a stage needs. A convolution needs
`2 * IM_CH * KER_DIM * KER_DIM` 16-bit elements (the im2col data); the max-pooling kernel
is also called with `NULL` and so needs none; the fully-connected kernel needs its input
vector, `dim_vec` elements, widened to 16 bits. The kernels themselves are not part of
this repository. -/
def Call.workspaceNeed : Call → Nat
  | .arm_convolve_HWC_q7_RGB _ _ ch_im_in _ _ dim_kernel _ _ _ _ _ _ _ _ _ =>
    2 * ch_im_in * dim_kernel * dim_kernel * 2
  | .arm_convolve_HWC_q7_fast _ _ ch_im_in _ _ dim_kernel _ _ _ _ _ _ _ _ _ =>
    2 * ch_im_in * dim_kernel * dim_kernel * 2
  | .arm_relu_q7 .. => 0
  | .arm_maxpool_q7_HWC .. => 0
  | .arm_fully_connected_q7_opt _ _ dim_vec _ _ _ _ _ _ => dim_vec * 2
  | .arm_softmax_q7 .. => 0

/-- Bytes available at a pointer before the object it points into ends; inside
`scratch_buffer` the part below `img_buffer2` ends where `img_buffer2` begins. -/
def Ptr.capacity : Ptr → Nat
  | .col_buffer => COL_BYTES
  | .scratch offset =>
    if offset < img_buffer2 then img_buffer2 - offset else SCRATCH_BYTES - offset
  | _ => 0

/-! ## Sample inputs -/

/-- A configuration with the layer shapes of the model description: 5×5 kernels, 32, 16
and 32 output channels, 3×3 pooling with stride 2. -/
def sampleParams : Params :=
  { CONV1_OUT_CH := 32, CONV1_KER_DIM := 5, CONV1_PADDING := 2, CONV1_STRIDE := 1,
    CONV1_BIAS_LSHIFT := 0, CONV1_OUT_RSHIFT := 11, CONV1_OUT_DIM := 32,
    POOL1_KER_DIM := 3, POOL1_PADDING := 0, POOL1_STRIDE := 2, POOL1_OUT_DIM := 16,
    CONV2_IM_DIM := 16, CONV2_IM_CH := 32, CONV2_OUT_CH := 16, CONV2_KER_DIM := 5,
    CONV2_PADDING := 2, CONV2_STRIDE := 1, CONV2_BIAS_LSHIFT := 0, CONV2_OUT_RSHIFT := 8,
    CONV2_OUT_DIM := 16,
    POOL2_KER_DIM := 3, POOL2_PADDING := 0, POOL2_STRIDE := 2, POOL2_OUT_DIM := 8,
    CONV3_IM_DIM := 8, CONV3_IM_CH := 16, CONV3_OUT_CH := 32, CONV3_KER_DIM := 5,
    CONV3_PADDING := 2, CONV3_STRIDE := 1, CONV3_BIAS_LSHIFT := 1, CONV3_OUT_RSHIFT := 8,
    CONV3_OUT_DIM := 8,
    POOL3_KER_DIM := 3, POOL3_PADDING := 0, POOL3_STRIDE := 2, POOL3_OUT_DIM := 4,
    IP1_DIM := 512, IP1_OUT := 10, IP1_BIAS_LSHIFT := 5, IP1_OUT_RSHIFT := 7,
    INPUT_MEAN_SHIFT := fun _ => 125, INPUT_RIGHT_SHIFT := fun _ => 8 }

/-- A stand-in for the library that leaves every buffer as it is. -/
def idleKernels : Kernels := fun _ m => m

/-- A 14-byte file header with magic `BM` and data offset `off < 256`. -/
def bmpHeader (off : Nat) : List Nat := [66, 77, 0, 0, 0, 0, 0, 0, 0, 0, off, 0, 0, 0]

/-! ## Specification-side index maps -/

/-- The value the pre-processing loop stores for image byte `j`. -/
def quantAt (image : List Nat) (mean_data : Fin 3 → Int) (scale_data : Fin 3 → Nat)
    (j : Nat) : Int :=
  quantize (image.getD j 0) (mean_data ⟨j % 3, Nat.mod_lt j (by decide)⟩)
    (scale_data ⟨j % 3, Nat.mod_lt j (by decide)⟩)

/-- Where the byte found at index `k` after the swap loop (entered at `i`, bound `rc`)
stood before it. -/
def swapIdx (rc : Int) (i k : Nat) : Nat :=
  if k % 3 = 0 ∧ i ≤ k ∧ (k : Int) < rc then k + 2
  else if k % 3 = 2 ∧ i + 2 ≤ k ∧ (k : Int) - 2 < rc then k - 2
  else k

/-! ## Buffer roles of the calls -/

/-- The buffer a call reads its activations from (`Im_in`, `data`, `pV`, `vec_in`). -/
def Call.input : Call → Ptr
  | .arm_convolve_HWC_q7_RGB Im_in _ _ _ _ _ _ _ _ _ _ _ _ _ _ => Im_in
  | .arm_convolve_HWC_q7_fast Im_in _ _ _ _ _ _ _ _ _ _ _ _ _ _ => Im_in
  | .arm_relu_q7 data _ => data
  | .arm_maxpool_q7_HWC Im_in _ _ _ _ _ _ _ _ => Im_in
  | .arm_fully_connected_q7_opt pV _ _ _ _ _ _ _ _ => pV
  | .arm_softmax_q7 vec_in _ _ => vec_in

/-- The buffer a call writes its result to (`Im_out`, `data`, `pOut`, `p_out`). -/
def Call.output : Call → Ptr
  | .arm_convolve_HWC_q7_RGB _ _ _ _ _ _ _ _ _ _ _ Im_out _ _ _ => Im_out
  | .arm_convolve_HWC_q7_fast _ _ _ _ _ _ _ _ _ _ _ Im_out _ _ _ => Im_out
  | .arm_relu_q7 data _ => data
  | .arm_maxpool_q7_HWC _ _ _ _ _ _ _ _ Im_out => Im_out
  | .arm_fully_connected_q7_opt _ _ _ _ _ _ _ pOut _ => pOut
  | .arm_softmax_q7 _ _ p_out => p_out

/-- Number of elements a convolution writes: `dim_im_out * dim_im_out * ch_im_out`;
0 for the other calls. -/
def Call.outElems : Call → Nat
  | .arm_convolve_HWC_q7_RGB _ _ _ _ ch_im_out _ _ _ _ _ _ _ dim_im_out _ _ =>
    dim_im_out * dim_im_out * ch_im_out
  | .arm_convolve_HWC_q7_fast _ _ _ _ ch_im_out _ _ _ _ _ _ _ dim_im_out _ _ =>
    dim_im_out * dim_im_out * ch_im_out
  | _ => 0

/-- Whether a call is a convolution, pooling or fully-connected stage. -/
def Call.moves (c : Call) : Bool :=
  c.stage = Stage.conv || c.stage = Stage.maxpool || c.stage = Stage.fullyConnected

/-- The ping-pong discipline in the words of the specification: every convolution,
pooling and fully-connected stage reads the current read buffer `rd`, writes the other
activation buffer `wr` and is handed `col_buffer` as scratch, after which the two roles
flip; the remaining stages leave the roles alone. -/
def pingPong : Ptr → Ptr → List Call → Bool
  | _, _, [] => true
  | rd, wr, c :: cs =>
    if c.moves then
      (decide (c.input = rd) && decide (c.output = wr)
        && decide (c.workspace = Ptr.col_buffer)) && pingPong wr rd cs
    else pingPong rd wr cs

/-! ## The swap loop with its memory accesses recorded -/

/-- State of the swap loop together with a record of what it did. -/
structure SwapLog where
  /-- Contents of `image_data`. -/
  data : List Nat
  /-- Indices of `image_data` read or written so far, in order. -/
  accesses : List Nat
  /-- Number of times the loop body has run. -/
  iterations : Nat
  /-- Whether the loop has been left through its condition `i < rc`. -/
  finished : Bool
  deriving DecidableEq, Repr

/-- The loop `for (int i = 0; i < rc; i += 3)` of source lines 213-217, entered at index
`i`, recording each access to `image_data[i]` and `image_data[i + 2]`. -/
def swapLoopLog (rc : Int) : Nat → Nat → SwapLog → SwapLog
  | 0, _, st => st
  | fuel + 1, i, st =>
    if (i : Int) < rc then
      swapLoopLog rc fuel (i + 3)
        { data := swapStep st.data i, accesses := st.accesses ++ [i, i + 2],
          iterations := st.iterations + 1, finished := false }
    else { st with finished := true }

/-- A 14-byte file header with magic `BM` and data offset `lo + 256 * hi`. -/
def bmpHeader2 (lo hi : Nat) : List Nat := [66, 77, 0, 0, 0, 0, 0, 0, 0, 0, lo, hi, 0, 0]

/-! # Lemmas and theorems -/

/-! ## List lemmas -/

theorem getD_set {α : Type} (l : List α) (n k : Nat) (a d : α) :
    (l.set n a).getD k d = if n = k ∧ n < l.length then a else l.getD k d := by
  simp only [List.getD_eq_getElem?_getD, List.getElem?_set]
  by_cases h : n = k
  · subst h
    by_cases h2 : n < l.length
    · simp [h2]
    · simp [h2, List.getElem?_eq_none (Nat.le_of_not_lt h2)]
  · simp [h]

/-! ## Decoder lemmas -/

theorem read_length (stdin : List Nat) (pos count : Nat) :
    (read stdin pos count).length = min count (stdin.length - pos) := by
  simp [read]

theorem getD_take_lt (l : List Nat) (n i d : Nat) (h : i < n) :
    (l.take n).getD i d = l.getD i d := by
  simp [List.getD_eq_getElem?_getD, List.getElem?_take, h]

theorem store_full (cap : Nat) (buf data : List Nat) (h : data.length = cap) :
    store cap buf data = data := by
  unfold store
  exact List.take_left' h

theorem bfOffBits_take (l : List Nat) : bfOffBits (l.take 14) = bfOffBits l := by
  simp [bfOffBits, getD_take_lt]

theorem bfOffBits_lt (l : List Nat) : bfOffBits l < 4294967296 := by
  unfold bfOffBits; omega

theorem read_header (stdin : List Nat) (h : 14 ≤ stdin.length) :
    read stdin 0 sizeofBITMAPFILEHEADER = stdin.take 14 ∧ (stdin.take 14).length = 14 := by
  simp [read, sizeofBITMAPFILEHEADER, h]

theorem toInt32_small (n : Nat) (h : n < 2147483648) : toInt32 n = n := by
  unfold toInt32; omega

theorem toUInt32_small (n : Nat) (h : n < 4294967296) : toUInt32 n = n := by
  unfold toUInt32; omega

/-- decode after a complete header. -/
theorem decode_full_header (stdin hdr0 : List Nat) (h : 14 ≤ stdin.length) :
    decode stdin hdr0 =
      if stdin.getD 0 0 ≠ 66 ∨ stdin.getD 1 0 ≠ 77 then
        { exit := .magic, consumed := 14, atPixelRead := none, rc := 14,
          cursor := 14, image_data := image_data0, skipStored := 0 }
      else
        let skipped := read stdin 14 (toUInt32 ((bfOffBits stdin : Int) - 14))
        let image1 := store IMAGE_BYTES image_data0 skipped
        let pos := 14 + skipped.length
        if toInt32 skipped.length ≤ 0 then
          { exit := .skipRead, consumed := pos, atPixelRead := none,
            rc := toInt32 skipped.length,
            cursor := 14, image_data := image1, skipStored := skipped.length }
        else
          if toUInt32 (14 + toInt32 skipped.length) ≠ bfOffBits stdin then
            { exit := .offsetMismatch, consumed := pos, atPixelRead := none,
              rc := toInt32 skipped.length,
              cursor := toUInt32 (14 + toInt32 skipped.length), image_data := image1,
              skipStored := skipped.length }
          else
            let pixels := read stdin pos IMAGE_BYTES
            let image2 := store IMAGE_BYTES image1 pixels
            if toInt32 pixels.length ≤ 0 then
              { exit := .pixelRead, consumed := pos + pixels.length, atPixelRead := some pos,
                rc := toInt32 pixels.length,
                cursor := toUInt32 (14 + toInt32 skipped.length), image_data := image2,
                skipStored := skipped.length }
            else
              { exit := .accepted, consumed := pos + pixels.length, atPixelRead := some pos,
                rc := toInt32 pixels.length,
                cursor := toUInt32 (14 + toInt32 skipped.length), image_data := image2,
                skipStored := skipped.length } := by
  obtain ⟨hr, hl⟩ := read_header stdin h
  have hs : store sizeofBITMAPFILEHEADER hdr0 (List.take 14 stdin) = List.take 14 stdin :=
    store_full _ _ _ hl
  have h14 : toInt32 ((14 : Nat) : Int) = 14 := by decide
  have hc : toUInt32 (((0 : Nat) : Int) + 14) = 14 := by decide
  unfold decode
  simp only [hr, hl, hs, h14, hc, bfOffBits_take, bfType0, bfType1, getD_take_lt]
  simp

theorem IMAGE_BYTES_eq : IMAGE_BYTES = 3072 := by decide

theorem magic_ok (stdin : List Nat) (hB : stdin.getD 0 0 = 66) (hM : stdin.getD 1 0 = 77) :
    ¬ (stdin.getD 0 0 ≠ 66 ∨ stdin.getD 1 0 ≠ 77) := by
  rintro (h | h)
  · exact h hB
  · exact h hM

theorem decode_skipRead (stdin hdr0 : List Nat) (h14 : 14 ≤ stdin.length)
    (hB : stdin.getD 0 0 = 66) (hM : stdin.getD 1 0 = 77)
    (g1 : toInt32 (skipBytes stdin).length ≤ 0) :
    decode stdin hdr0 =
      { exit := .skipRead, consumed := 14 + (skipBytes stdin).length, atPixelRead := none,
        rc := toInt32 (skipBytes stdin).length, cursor := 14,
        image_data := store IMAGE_BYTES image_data0 (skipBytes stdin),
        skipStored := (skipBytes stdin).length } := by
  rw [decode_full_header stdin hdr0 h14, if_neg (magic_ok stdin hB hM)]
  dsimp only
  unfold skipBytes at g1 ⊢
  rw [if_pos g1]

theorem decode_offsetMismatch (stdin hdr0 : List Nat) (h14 : 14 ≤ stdin.length)
    (hB : stdin.getD 0 0 = 66) (hM : stdin.getD 1 0 = 77)
    (g1 : ¬ toInt32 (skipBytes stdin).length ≤ 0)
    (g2 : toUInt32 (14 + toInt32 (skipBytes stdin).length) ≠ bfOffBits stdin) :
    decode stdin hdr0 =
      { exit := .offsetMismatch, consumed := 14 + (skipBytes stdin).length,
        atPixelRead := none, rc := toInt32 (skipBytes stdin).length,
        cursor := toUInt32 (14 + toInt32 (skipBytes stdin).length),
        image_data := store IMAGE_BYTES image_data0 (skipBytes stdin),
        skipStored := (skipBytes stdin).length } := by
  rw [decode_full_header stdin hdr0 h14, if_neg (magic_ok stdin hB hM)]
  dsimp only
  unfold skipBytes at g1 g2 ⊢
  rw [if_neg g1, if_pos g2]

theorem decode_pixelRead (stdin hdr0 : List Nat) (h14 : 14 ≤ stdin.length)
    (hB : stdin.getD 0 0 = 66) (hM : stdin.getD 1 0 = 77)
    (g1 : ¬ toInt32 (skipBytes stdin).length ≤ 0)
    (g2 : ¬ toUInt32 (14 + toInt32 (skipBytes stdin).length) ≠ bfOffBits stdin)
    (g3 : toInt32 (pixelBytes stdin).length ≤ 0) :
    decode stdin hdr0 =
      { exit := .pixelRead,
        consumed := 14 + (skipBytes stdin).length + (pixelBytes stdin).length,
        atPixelRead := some (14 + (skipBytes stdin).length),
        rc := toInt32 (pixelBytes stdin).length,
        cursor := toUInt32 (14 + toInt32 (skipBytes stdin).length),
        image_data := store IMAGE_BYTES
          (store IMAGE_BYTES image_data0 (skipBytes stdin)) (pixelBytes stdin),
        skipStored := (skipBytes stdin).length } := by
  rw [decode_full_header stdin hdr0 h14, if_neg (magic_ok stdin hB hM)]
  dsimp only
  unfold pixelBytes at g3 ⊢
  unfold skipBytes at g1 g2 g3 ⊢
  rw [if_neg g1, if_neg g2, if_pos g3]

theorem decode_accepted (stdin hdr0 : List Nat) (h14 : 14 ≤ stdin.length)
    (hB : stdin.getD 0 0 = 66) (hM : stdin.getD 1 0 = 77)
    (g1 : ¬ toInt32 (skipBytes stdin).length ≤ 0)
    (g2 : ¬ toUInt32 (14 + toInt32 (skipBytes stdin).length) ≠ bfOffBits stdin)
    (g3 : ¬ toInt32 (pixelBytes stdin).length ≤ 0) :
    decode stdin hdr0 =
      { exit := .accepted,
        consumed := 14 + (skipBytes stdin).length + (pixelBytes stdin).length,
        atPixelRead := some (14 + (skipBytes stdin).length),
        rc := toInt32 (pixelBytes stdin).length,
        cursor := toUInt32 (14 + toInt32 (skipBytes stdin).length),
        image_data := store IMAGE_BYTES
          (store IMAGE_BYTES image_data0 (skipBytes stdin)) (pixelBytes stdin),
        skipStored := (skipBytes stdin).length } := by
  rw [decode_full_header stdin hdr0 h14, if_neg (magic_ok stdin hB hM)]
  dsimp only
  unfold pixelBytes at g3 ⊢
  unfold skipBytes at g1 g2 g3 ⊢
  rw [if_neg g1, if_neg g2, if_neg g3]

theorem skipBytes_length (stdin : List Nat) :
    (skipBytes stdin).length
      = min (toUInt32 ((bfOffBits stdin : Int) - 14)) (stdin.length - 14) := by
  unfold skipBytes; exact read_length _ _ _

theorem pixelBytes_length (stdin : List Nat) :
    (pixelBytes stdin).length
      = min 3072 (stdin.length - (14 + (skipBytes stdin).length)) := by
  unfold pixelBytes; rw [read_length, IMAGE_BYTES_eq]

/-! ## The program as a whole -/

theorem runCalls_trace (K : Kernels) (cs : List Call) (m : Memory) (t : List Call) :
    (runCalls K cs m t).2 = t ++ cs := by
  induction cs generalizing m t with
  | nil => simp [runCalls]
  | cons c cs ih => simp [runCalls, ih]

theorem main_rejected (K : Kernels) (P : Params) (stdin hdr0 : List Nat)
    (h : (decode stdin hdr0).exit ≠ Exit.accepted) :
    main K P stdin hdr0 =
      { decoded := decode stdin hdr0, perrors := 1, calls := [], input := memory0 P,
        afterCalls := memory0 P, memory := memory0 P,
        image_data := (decode stdin hdr0).image_data, stdout := [], ret := 0 } := by
  unfold main
  exact if_pos h

theorem main_accepted (K : Kernels) (P : Params) (stdin hdr0 : List Nat)
    (h : (decode stdin hdr0).exit = Exit.accepted) :
    main K P stdin hdr0 =
      { decoded := decode stdin hdr0, perrors := 0,
        calls := (runCalls K (pipeline P)
          { memory0 P with
            scratch_buffer :=
              preprocess (swapChannels (decode stdin hdr0).rc (decode stdin hdr0).image_data)
                P.INPUT_MEAN_SHIFT P.INPUT_RIGHT_SHIFT (memory0 P).scratch_buffer } []).2,
        input :=
          { memory0 P with
            scratch_buffer :=
              preprocess (swapChannels (decode stdin hdr0).rc (decode stdin hdr0).image_data)
                P.INPUT_MEAN_SHIFT P.INPUT_RIGHT_SHIFT (memory0 P).scratch_buffer },
        afterCalls := (runCalls K (pipeline P)
          { memory0 P with
            scratch_buffer :=
              preprocess (swapChannels (decode stdin hdr0).rc (decode stdin hdr0).image_data)
                P.INPUT_MEAN_SHIFT P.INPUT_RIGHT_SHIFT (memory0 P).scratch_buffer } []).1,
        memory := (runCalls K (pipeline P)
          { memory0 P with
            scratch_buffer :=
              preprocess (swapChannels (decode stdin hdr0).rc (decode stdin hdr0).image_data)
                P.INPUT_MEAN_SHIFT P.INPUT_RIGHT_SHIFT (memory0 P).scratch_buffer } []).1,
        image_data := swapChannels (decode stdin hdr0).rc (decode stdin hdr0).image_data,
        stdout := printLoop (runCalls K (pipeline P)
          { memory0 P with
            scratch_buffer :=
              preprocess (swapChannels (decode stdin hdr0).rc (decode stdin hdr0).image_data)
                P.INPUT_MEAN_SHIFT P.INPUT_RIGHT_SHIFT (memory0 P).scratch_buffer }
            []).1.output_data 10 0 [],
        ret := 0 } := by
  unfold main
  exact if_neg (fun h2 => h2 h)

theorem printLoop_ten (out : List Int) :
    printLoop out 10 0 [] =
      [printfLine out 0, printfLine out 1, printfLine out 2, printfLine out 3,
       printfLine out 4, printfLine out 5, printfLine out 6, printfLine out 7,
       printfLine out 8, printfLine out 9] := by
  simp [printLoop]
/-! ## Quantizer lemmas -/

theorem toInt32_id (x : Int) (h1 : -2147483648 ≤ x) (h2 : x < 2147483648) :
    toInt32 x = x := by
  unfold toInt32; omega

theorem toInt8_id (x : Int) (h1 : -128 ≤ x) (h2 : x ≤ 127) : toInt8 x = x := by
  unfold toInt8; omega

theorem SSAT8_range (x : Int) : -128 ≤ SSAT8 x ∧ SSAT8 x ≤ 127 := by
  unfold SSAT8; split_ifs <;> omega

theorem SSAT8_eq_clamp (x : Int) : SSAT8 x = max (-128) (min 127 x) := by
  unfold SSAT8; split_ifs <;> omega

theorem pow_shift_bound (s : Nat) (h1 : 1 ≤ s) (hs : s ≤ 31) :
    (1 : Int) ≤ 2 ^ (s - 1) ∧ (2 : Int) ^ (s - 1) ≤ 1073741824 := by
  constructor
  · exact one_le_pow₀ (by norm_num)
  · have h : (2 : Int) ^ (s - 1) ≤ 2 ^ 30 := pow_le_pow_right₀ (by norm_num) (by omega)
    simpa using h

/-- The value the quantizer computes when nothing overflows. -/
theorem quantize_eq (r : Nat) (m : Int) (s : Nat) (hr : r ≤ 255) (hm0 : 0 ≤ m)
    (hm : m ≤ 255) (hs1 : 1 ≤ s) (hs : s ≤ 31) :
    quantize r m s = SSAT8 ((((r : Int) - m) * 128 + 2 ^ (s - 1)) / 2 ^ s) := by
  obtain ⟨hp1, hp2⟩ := pow_shift_bound s hs1 hs
  have e1 : toInt32 ((r : Int) - m) = (r : Int) - m := toInt32_id _ (by omega) (by omega)
  have e2 : shl32 ((r : Int) - m) 7 = ((r : Int) - m) * 128 := by
    unfold shl32
    rw [show ((2 : Int) ^ 7) = 128 from by norm_num]
    exact toInt32_id _ (by omega) (by omega)
  have e3 : toUInt32 ((s : Int) - 1) = s - 1 := by
    unfold toUInt32; omega
  have e4 : shl32 1 (s - 1) = 2 ^ (s - 1) := by
    unfold shl32
    rw [one_mul]
    exact toInt32_id _ (by omega) (by omega)
  have e5 : toInt32 (((r : Int) - m) * 128 + 2 ^ (s - 1)) = ((r : Int) - m) * 128 + 2 ^ (s - 1) :=
    toInt32_id _ (by omega) (by omega)
  unfold quantize
  rw [e1, e2, e3, e4, e5]
  unfold sar32
  rw [Int.shiftRight_eq_div_pow]
  have hr := SSAT8_range ((((r : Int) - m) * 128 + 2 ^ (s - 1)) / ((2 ^ s : Nat) : Int))
  rw [toInt8_id _ hr.1 hr.2]
  norm_cast
theorem quantStep_length (image : List Nat) (mean_data : Fin 3 → Int)
    (scale_data : Fin 3 → Nat) (scratch : List Int) (i : Nat) :
    (quantStep image mean_data scale_data scratch i).length = scratch.length := by
  simp [quantStep]

theorem quantStep_getD (image : List Nat) (mean_data : Fin 3 → Int)
    (scale_data : Fin 3 → Nat) (scratch : List Int) (i k : Nat) (hi : i % 3 = 0)
    (hlen : img_buffer2 + i + 2 < scratch.length) :
    (quantStep image mean_data scale_data scratch i).getD k 0 =
      if img_buffer2 + i ≤ k ∧ k < img_buffer2 + i + 3 then
        quantAt image mean_data scale_data (k - img_buffer2)
      else scratch.getD k 0 := by
  have f0 : (⟨i % 3, Nat.mod_lt i (by decide)⟩ : Fin 3) = 0 := Fin.ext hi
  have f1 : (⟨(i + 1) % 3, Nat.mod_lt (i + 1) (by decide)⟩ : Fin 3) = 1 :=
    Fin.ext (by show (i + 1) % 3 = 1; omega)
  have f2 : (⟨(i + 2) % 3, Nat.mod_lt (i + 2) (by decide)⟩ : Fin 3) = 2 :=
    Fin.ext (by show (i + 2) % 3 = 2; omega)
  unfold quantStep
  simp only [getD_set, List.length_set]
  by_cases h2 : img_buffer2 + (i + 2) = k
  · have hk : k - img_buffer2 = i + 2 := by omega
    rw [if_pos ⟨h2, by omega⟩, if_pos (by omega)]
    unfold quantAt
    rw [hk, f2]
  · by_cases h1 : img_buffer2 + (i + 1) = k
    · have hk : k - img_buffer2 = i + 1 := by omega
      rw [if_neg (fun h => h2 h.1), if_pos ⟨h1, by omega⟩, if_pos (by omega)]
      unfold quantAt
      rw [hk, f1]
    · by_cases h0 : img_buffer2 + i = k
      · have hk : k - img_buffer2 = i := by omega
        rw [if_neg (fun h => h2 h.1), if_neg (fun h => h1 h.1), if_pos ⟨h0, by omega⟩,
          if_pos (by omega)]
        unfold quantAt
        rw [hk, f0]
      · rw [if_neg (fun h => h2 h.1), if_neg (fun h => h1 h.1), if_neg (fun h => h0 h.1),
          if_neg (by omega)]

theorem quantLoop_getD (image : List Nat) (mean_data : Fin 3 → Int)
    (scale_data : Fin 3 → Nat) (fuel : Nat) :
    ∀ (i : Nat) (scratch : List Int) (k : Nat), i % 3 = 0 → 3072 ≤ i + 3 * fuel →
      img_buffer2 + 3072 ≤ scratch.length →
      (quantLoop image mean_data scale_data fuel i scratch).getD k 0 =
        if img_buffer2 + i ≤ k ∧ k < img_buffer2 + 3072 then
          quantAt image mean_data scale_data (k - img_buffer2)
        else scratch.getD k 0 := by
  induction fuel with
  | zero =>
    intro i scratch k _ hf _
    have : ¬ (img_buffer2 + i ≤ k ∧ k < img_buffer2 + 3072) := by omega
    simp only [quantLoop, if_neg this]
  | succ fuel ih =>
    intro i scratch k hi hf hlen
    unfold quantLoop
    by_cases hlt : i < 32 * 32 * 3
    · rw [if_pos hlt]
      have hlen2 : img_buffer2 + i + 2 < scratch.length := by omega
      rw [ih (i + 3) _ k (by omega) (by omega) (by rw [quantStep_length]; exact hlen),
        quantStep_getD image mean_data scale_data scratch i k hi hlen2]
      by_cases c1 : img_buffer2 + (i + 3) ≤ k ∧ k < img_buffer2 + 3072
      · rw [if_pos c1, if_pos (by omega)]
      · rw [if_neg c1]
        by_cases c2 : img_buffer2 + i ≤ k ∧ k < img_buffer2 + i + 3
        · rw [if_pos c2, if_pos (by omega)]
        · rw [if_neg c2, if_neg (by omega)]
    · rw [if_neg hlt, if_neg (by omega)]

/-! ## Swap loop lemmas -/

theorem list_ext_getD (l1 l2 : List Nat) (hl : l1.length = l2.length)
    (h : ∀ k, l1.getD k 0 = l2.getD k 0) : l1 = l2 := by
  apply List.ext_getElem hl
  intro n h1 h2
  have := h n
  rwa [List.getD_eq_getElem l1 0 h1, List.getD_eq_getElem l2 0 h2] at this

theorem swapStep_length (a : List Nat) (i : Nat) : (swapStep a i).length = a.length := by
  simp [swapStep]

theorem swapStep_getD (a : List Nat) (i k : Nat) (hi : i + 2 < a.length) :
    (swapStep a i).getD k 0 =
      if k = i then a.getD (i + 2) 0 else if k = i + 2 then a.getD i 0 else a.getD k 0 := by
  unfold swapStep
  simp only [getD_set, List.length_set]
  by_cases h2 : i + 2 = k
  · rw [if_pos ⟨h2, hi⟩, if_neg (by omega), if_pos h2.symm]
  · rw [if_neg (fun h => h2 h.1)]
    by_cases h0 : i = k
    · rw [if_pos ⟨h0, by omega⟩, if_pos h0.symm]
    · rw [if_neg (fun h => h0 h.1), if_neg (fun h => h0 h.symm), if_neg (fun h => h2 h.symm)]

theorem swapLoop_length (rc : Int) (fuel : Nat) :
    ∀ (i : Nat) (a : List Nat), (swapLoop rc fuel i a).length = a.length := by
  induction fuel with
  | zero => intro i a; rfl
  | succ fuel ih =>
    intro i a
    unfold swapLoop
    split_ifs
    · rw [ih, swapStep_length]
    · rfl

theorem swapLoop_getD (rc : Int) (fuel : Nat) :
    ∀ (i : Nat) (a : List Nat) (k : Nat), i % 3 = 0 → rc ≤ (i : Int) + 3 * fuel →
      a.length % 3 = 0 → rc ≤ a.length →
      (swapLoop rc fuel i a).getD k 0 = a.getD (swapIdx rc i k) 0 := by
  induction fuel with
  | zero =>
    intro i a k _ hf _ _
    have : swapIdx rc i k = k := by
      unfold swapIdx; split_ifs <;> omega
    rw [this]; rfl
  | succ fuel ih =>
    intro i a k hi hf h3 hlen
    unfold swapLoop
    by_cases hlt : (i : Int) < rc
    · rw [if_pos hlt]
      have hb : i + 2 < a.length := by omega
      rw [ih (i + 3) _ k (by omega) (by push_cast; omega)
        (by rw [swapStep_length]; exact h3) (by rw [swapStep_length]; exact hlen),
        swapStep_getD a i _ hb]
      by_cases c0 : swapIdx rc (i + 3) k = i
      · rw [if_pos c0]
        congr 1
        unfold swapIdx at c0 ⊢
        split_ifs at c0 ⊢ <;> omega
      · rw [if_neg c0]
        by_cases c2 : swapIdx rc (i + 3) k = i + 2
        · rw [if_pos c2]
          congr 1
          unfold swapIdx at c2 ⊢
          split_ifs at c2 ⊢ <;> omega
        · rw [if_neg c2]
          congr 1
          unfold swapIdx at c0 c2 ⊢
          split_ifs at c0 c2 ⊢ <;> omega
    · rw [if_neg hlt]
      have : swapIdx rc i k = k := by
        unfold swapIdx; split_ifs <;> omega
      rw [this]

theorem swapChannels_getD (rc : Int) (a : List Nat) (k : Nat) (h3 : a.length % 3 = 0)
    (hlen : rc ≤ a.length) :
    (swapChannels rc a).getD k 0 = a.getD (swapIdx rc 0 k) 0 :=
  swapLoop_getD rc rc.toNat 0 a k rfl (by omega) h3 hlen

theorem swapChannels_length (rc : Int) (a : List Nat) :
    (swapChannels rc a).length = a.length :=
  swapLoop_length rc rc.toNat 0 a


/-! ## Accepted runs -/

theorem main_calls_of_accepted (K : Kernels) (P : Params) (stdin hdr0 : List Nat)
    (h : (decode stdin hdr0).exit = Exit.accepted) :
    (main K P stdin hdr0).calls = pipeline P := by
  rw [main_accepted K P stdin hdr0 h]
  dsimp only
  rw [runCalls_trace]
  rfl

theorem main_stdout_of_accepted (K : Kernels) (P : Params) (stdin hdr0 : List Nat)
    (h : (decode stdin hdr0).exit = Exit.accepted) :
    (main K P stdin hdr0).stdout
      = (List.range 10).map (printfLine (main K P stdin hdr0).afterCalls.output_data) := by
  rw [main_accepted K P stdin hdr0 h]
  dsimp only
  rw [printLoop_ten]
  rfl

/-! # The claims -/

/-- C1, as stated, fails: a stream with magic `BM`, data offset 14 (the header size)
and 3072 further bytes is rejected, because the zero-length skip read returns 0. -/
theorem C1_offset_14_rejected :
    (bmpHeader 14 ++ List.replicate 3072 7).getD 0 0 = 66 ∧
    (bmpHeader 14 ++ List.replicate 3072 7).getD 1 0 = 77 ∧
    14 ≤ bfOffBits (bmpHeader 14 ++ List.replicate 3072 7) ∧
    bfOffBits (bmpHeader 14 ++ List.replicate 3072 7) + 3072
      ≤ (bmpHeader 14 ++ List.replicate 3072 7).length ∧
    (decode (bmpHeader 14 ++ List.replicate 3072 7) (List.replicate 14 0)).exit
      = Exit.skipRead ∧
    (decode (bmpHeader 14 ++ List.replicate 3072 7) (List.replicate 14 0)).exit
      ≠ Exit.accepted := by
  refine ⟨by decide, by decide, by decide, ?_, by decide, by decide⟩
  have h : bfOffBits (bmpHeader 14 ++ List.replicate 3072 7) = 14 := by decide
  rw [h, List.length_append, List.length_replicate]
  decide

/-- C1, amended: when the stream starts with `BM`, its data offset `off` is larger than
the 14-byte header and at most 14 + 3072, and the stream has at least `off + 3072`
bytes, the decoder accepts, `image_data` holds exactly the 3072 bytes at stream
positions `off .. off + 3071`, and the skipped bytes fitted the buffer. -/
theorem C1_decode_accepts (stdin hdr0 : List Nat)
    (hB : stdin.getD 0 0 = 66) (hM : stdin.getD 1 0 = 77)
    (hlo : 14 < bfOffBits stdin) (hhi : bfOffBits stdin ≤ 14 + 3072)
    (hlen : bfOffBits stdin + 3072 ≤ stdin.length) :
    (decode stdin hdr0).exit = Exit.accepted ∧
      (decode stdin hdr0).image_data = (stdin.drop (bfOffBits stdin)).take 3072 ∧
      (decode stdin hdr0).image_data.length = 3072 ∧
      (decode stdin hdr0).skipStored ≤ 3072 := by
  have h14 : 14 ≤ stdin.length := by omega
  have hcount : toUInt32 ((bfOffBits stdin : Int) - 14) = bfOffBits stdin - 14 := by
    unfold toUInt32; omega
  have hsk : (skipBytes stdin).length = bfOffBits stdin - 14 := by
    rw [skipBytes_length, hcount]; omega
  have hpx : (pixelBytes stdin).length = 3072 := by
    rw [pixelBytes_length, hsk]; omega
  have hpos : 14 + (skipBytes stdin).length = bfOffBits stdin := by omega
  have g1 : ¬ toInt32 (skipBytes stdin).length ≤ 0 := by
    rw [toInt32_small _ (by omega)]; omega
  have g2 : ¬ toUInt32 (14 + toInt32 (skipBytes stdin).length) ≠ bfOffBits stdin := by
    rw [toInt32_small _ (by omega)]; unfold toUInt32; omega
  have g3 : ¬ toInt32 (pixelBytes stdin).length ≤ 0 := by
    rw [toInt32_small _ (by omega)]; omega
  have hpix : pixelBytes stdin = (stdin.drop (bfOffBits stdin)).take 3072 := by
    unfold pixelBytes; rw [hpos, IMAGE_BYTES_eq]; rfl
  rw [decode_accepted stdin hdr0 h14 hB hM g1 g2 g3]
  dsimp only
  rw [store_full _ _ _ (by rw [hpx, IMAGE_BYTES_eq]), ← hpix]
  exact ⟨rfl, rfl, hpx, by omega⟩

theorem C1_decode_accepts_witness :
    (decode (bmpHeader 15 ++ List.replicate 3073 7) (List.replicate 14 0)).exit
      = Exit.accepted ∧
    (decode (bmpHeader 15 ++ List.replicate 3073 7) (List.replicate 14 0)).image_data
      = ((bmpHeader 15 ++ List.replicate 3073 7).drop
          (bfOffBits (bmpHeader 15 ++ List.replicate 3073 7))).take 3072 :=
  have h : bfOffBits (bmpHeader 15 ++ List.replicate 3073 7) = 15 := by decide
  have hl : bfOffBits (bmpHeader 15 ++ List.replicate 3073 7) + 3072
      ≤ (bmpHeader 15 ++ List.replicate 3073 7).length := by
    rw [h, List.length_append, List.length_replicate]; decide
  have w := C1_decode_accepts (bmpHeader 15 ++ List.replicate 3073 7) (List.replicate 14 0)
    (by decide) (by decide) (by decide) (by decide) hl
  ⟨w.1, w.2.1⟩

/-- C2 fails on the code: a 16-byte stream, header with magic `BM` and data offset 15,
one skipped byte and one single pixel byte, is shorter than `off + 3072`, yet the decoder
accepts it with `rc = 1`, and `main` goes on to make the eleven library calls and to
print the ten score lines. -/
theorem C2_short_image_accepted :
    (bmpHeader 15 ++ [9, 200]).length = 16 ∧
    bfOffBits (bmpHeader 15 ++ [9, 200]) = 15 ∧
    (bmpHeader 15 ++ [9, 200]).length < bfOffBits (bmpHeader 15 ++ [9, 200]) + 3072 ∧
    (decode (bmpHeader 15 ++ [9, 200]) (List.replicate 14 0)).exit = Exit.accepted ∧
    (decode (bmpHeader 15 ++ [9, 200]) (List.replicate 14 0)).rc = 1 ∧
    (main idleKernels sampleParams (bmpHeader 15 ++ [9, 200])
      (List.replicate 14 0)).calls.length = 11 ∧
    (main idleKernels sampleParams (bmpHeader 15 ++ [9, 200])
      (List.replicate 14 0)).stdout.length = 10 := by
  have h : (decode (bmpHeader 15 ++ [9, 200]) (List.replicate 14 0)).exit = Exit.accepted := by
    decide
  refine ⟨by decide, by decide, by decide, h, by decide, ?_, ?_⟩
  · rw [main_calls_of_accepted _ _ _ _ h]
    rfl
  · rw [main_stdout_of_accepted _ _ _ _ h]
    rfl

/-- C3: when at least 14 bytes arrive and the first two are not `B`, `M`, the decoder
leaves through the magic check having consumed exactly the 14 header bytes, never
reaches the pixel read, and `image_data` is as it was. -/
theorem C3_bad_magic (stdin hdr0 : List Nat) (hlen : 14 ≤ stdin.length)
    (hmagic : ¬ (stdin.getD 0 0 = 66 ∧ stdin.getD 1 0 = 77)) :
    (decode stdin hdr0).exit = Exit.magic ∧ (decode stdin hdr0).consumed = 14 ∧
      (decode stdin hdr0).atPixelRead = none ∧
      (decode stdin hdr0).image_data = image_data0 := by
  have hm : stdin.getD 0 0 ≠ 66 ∨ stdin.getD 1 0 ≠ 77 := by
    by_cases h0 : stdin.getD 0 0 = 66
    · right; intro h1; exact hmagic ⟨h0, h1⟩
    · left; exact h0
  rw [decode_full_header stdin hdr0 hlen, if_pos hm]
  exact ⟨rfl, rfl, rfl, rfl⟩

theorem C3_bad_magic_witness :
    (decode ([66, 109] ++ List.replicate 20 1) (List.replicate 14 0)).exit = Exit.magic ∧
    (decode ([66, 109] ++ List.replicate 20 1) (List.replicate 14 0)).consumed = 14 :=
  have w := C3_bad_magic ([66, 109] ++ List.replicate 20 1) (List.replicate 14 0)
    (by decide) (by decide)
  ⟨w.1, w.2.1⟩

/-- C4: standard output is empty or the ten score lines; a run the decoder rejects
makes no library call and prints nothing. -/
theorem C4_no_partial_output (K : Kernels) (P : Params) (stdin hdr0 : List Nat) :
    ((decode stdin hdr0).exit ≠ Exit.accepted →
      (main K P stdin hdr0).calls = [] ∧ (main K P stdin hdr0).stdout = []) ∧
    ((main K P stdin hdr0).stdout = [] ∨
      ((main K P stdin hdr0).stdout.length = 10 ∧
        (main K P stdin hdr0).stdout
          = (List.range 10).map (printfLine (main K P stdin hdr0).afterCalls.output_data))) := by
  by_cases h : (decode stdin hdr0).exit = Exit.accepted
  · refine ⟨fun h2 => absurd h h2, Or.inr ?_⟩
    rw [main_accepted K P stdin hdr0 h]
    dsimp only
    rw [printLoop_ten]
    exact ⟨rfl, rfl⟩
  · refine ⟨fun _ => ?_, Or.inl ?_⟩
    · rw [main_rejected K P stdin hdr0 h]
      exact ⟨rfl, rfl⟩
    · rw [main_rejected K P stdin hdr0 h]


/-- C5: with a complete header, magic `BM` and fewer than 2^31 bytes in all, the pixel
read is only ever issued when the bytes consumed equal `bfOffBits`; so an offset below
the 14-byte header size is rejected before the pixel read, wrap-around included. -/
theorem C5_cursor_equals_offset (stdin hdr0 : List Nat)
    (hlen : 14 ≤ stdin.length) (hsmall : stdin.length < 2147483648)
    (hB : stdin.getD 0 0 = 66) (hM : stdin.getD 1 0 = 77) :
    (∀ p, (decode stdin hdr0).atPixelRead = some p → p = bfOffBits stdin) ∧
    (bfOffBits stdin < 14 → (decode stdin hdr0).exit ≠ Exit.accepted ∧
      (decode stdin hdr0).atPixelRead = none) := by
  have hoff := bfOffBits_lt stdin
  have hsl := skipBytes_length stdin
  have e1 : toInt32 ((skipBytes stdin).length : Int) = (skipBytes stdin).length :=
    toInt32_small _ (by omega)
  have e2 : toUInt32 (14 + ((skipBytes stdin).length : Int)) = 14 + (skipBytes stdin).length := by
    unfold toUInt32; omega
  by_cases g1 : toInt32 (skipBytes stdin).length ≤ 0
  · rw [decode_skipRead stdin hdr0 hlen hB hM g1]
    exact ⟨fun p hp => Option.noConfusion hp,
      fun _ => And.intro (fun h => Exit.noConfusion h) rfl⟩
  · by_cases g2 : toUInt32 (14 + toInt32 (skipBytes stdin).length) ≠ bfOffBits stdin
    · rw [decode_offsetMismatch stdin hdr0 hlen hB hM g1 g2]
      exact ⟨fun p hp => Option.noConfusion hp,
        fun _ => And.intro (fun h => Exit.noConfusion h) rfl⟩
    · have hp0 : 14 + (skipBytes stdin).length = bfOffBits stdin := by
        rw [e1, e2] at g2; omega
      by_cases g3 : toInt32 (pixelBytes stdin).length ≤ 0
      · rw [decode_pixelRead stdin hdr0 hlen hB hM g1 g2 g3]
        refine ⟨fun p hp => ?_, fun h => ?_⟩
        · simp only [Option.some.injEq] at hp
          omega
        · omega
      · rw [decode_accepted stdin hdr0 hlen hB hM g1 g2 g3]
        refine ⟨fun p hp => ?_, fun h => ?_⟩
        · simp only [Option.some.injEq] at hp
          omega
        · omega

theorem C5_cursor_equals_offset_witness :
    (decode (bmpHeader 3 ++ [1, 2, 3]) (List.replicate 14 0)).exit ≠ Exit.accepted ∧
    (decode (bmpHeader 3 ++ [1, 2, 3]) (List.replicate 14 0)).atPixelRead = none :=
  (C5_cursor_equals_offset (bmpHeader 3 ++ [1, 2, 3]) (List.replicate 14 0)
    (by decide) (by decide) (by decide) (by decide)).2 (by decide)

/-- C6: without overflow the stored value is the clamped, rounded quotient; it lies in
the signed 8-bit range, saturates instead of wrapping, and byte `3p + c` of the
network input is made from byte `3p + c` of the image with channel `c`'s mean and
shift. -/
theorem C6_quantizer (r : Nat) (m : Int) (s : Nat) (hr : r ≤ 255) (hm0 : 0 ≤ m)
    (hm : m ≤ 255) (hs1 : 1 ≤ s) (hs : s ≤ 31) :
    quantize r m s
      = max (-128) (min 127 (Int.fdiv (((r : Int) - m) * 128 + 2 ^ (s - 1)) (2 ^ s))) ∧
    (-128 ≤ quantize r m s ∧ quantize r m s ≤ 127) ∧
    (127 < Int.fdiv (((r : Int) - m) * 128 + 2 ^ (s - 1)) (2 ^ s) → quantize r m s = 127) ∧
    (Int.fdiv (((r : Int) - m) * 128 + 2 ^ (s - 1)) (2 ^ s) < -128 → quantize r m s = -128) ∧
    (∀ (image : List Nat) (mean_data : Fin 3 → Int) (scale_data : Fin 3 → Nat)
        (scratch : List Int) (p : Nat) (c : Fin 3),
      scratch.length = SCRATCH_BYTES → p < 1024 →
      (preprocess image mean_data scale_data scratch).getD (img_buffer2 + (3 * p + c.val)) 0
        = quantize (image.getD (3 * p + c.val) 0) (mean_data c) (scale_data c)) := by
  have hq := quantize_eq r m s hr hm0 hm hs1 hs
  have hf : Int.fdiv (((r : Int) - m) * 128 + 2 ^ (s - 1)) (2 ^ s)
      = (((r : Int) - m) * 128 + 2 ^ (s - 1)) / 2 ^ s :=
    Int.fdiv_eq_ediv _ (by positivity)
  rw [hf, hq]
  refine ⟨SSAT8_eq_clamp _, SSAT8_range _, ?_, ?_, ?_⟩
  · intro h
    unfold SSAT8
    rw [if_pos h]
  · intro h
    unfold SSAT8
    rw [if_neg (by omega), if_pos h]
  · intro image mean_data scale_data scratch p c hlen hp
    have hS : SCRATCH_BYTES = 40960 := by decide
    have hb : img_buffer2 = 32768 := by decide
    have hc := c.isLt
    unfold preprocess
    rw [quantLoop_getD image mean_data scale_data (32 * 32 * 3) 0 scratch _ rfl (by omega)
      (by omega), if_pos (by omega)]
    unfold quantAt
    have hk : img_buffer2 + (3 * p + c.val) - img_buffer2 = 3 * p + c.val := by omega
    have hfin : (⟨(3 * p + c.val) % 3, Nat.mod_lt _ (by decide)⟩ : Fin 3) = c :=
      Fin.ext (by show (3 * p + c.val) % 3 = c.val; omega)
    rw [hk, hfin]

theorem C6_quantizer_witness :
    (-128 ≤ quantize 200 125 8 ∧ quantize 200 125 8 ≤ 127) ∧
    quantize 255 0 1
      = max (-128) (min 127 (Int.fdiv ((((255 : Nat) : Int) - 0) * 128 + 2 ^ (1 - 1)) (2 ^ 1))) :=
  ⟨(C6_quantizer 200 125 8 (by decide) (by decide) (by decide) (by decide) (by decide)).2.1,
   (C6_quantizer 255 0 1 (by decide) (by decide) (by decide) (by decide) (by decide)).1⟩

/-- C7: on the 3072-byte image buffer the swap loop, run twice with the same read
length between 1 and 3072, gives back the bytes it started from. -/
theorem C7_swap_involutive (a : List Nat) (rc : Int) (hlen : a.length = 3072)
    (_h1 : 1 ≤ rc) (h2 : rc ≤ 3072) :
    swapChannels rc (swapChannels rc a) = a := by
  apply list_ext_getD
  · rw [swapChannels_length, swapChannels_length]
  · intro k
    rw [swapChannels_getD rc _ k (by rw [swapChannels_length, hlen])
        (by rw [swapChannels_length, hlen]; exact_mod_cast h2),
      swapChannels_getD rc a _ (by rw [hlen]) (by rw [hlen]; exact_mod_cast h2)]
    congr 1
    unfold swapIdx
    split_ifs <;> omega

theorem C7_swap_involutive_witness :
    swapChannels 4 (swapChannels 4 (List.replicate 3072 5)) = List.replicate 3072 5 :=
  C7_swap_involutive (List.replicate 3072 5) 4 (List.length_replicate 3072 5) (by decide)
    (by decide)

/-- C8: after a successful decode the library is called eleven times, in the order
conv, ReLU, max-pool (three times over), fully-connected, softmax, whatever the image. -/
theorem C8_call_order (K : Kernels) (P : Params) (stdin hdr0 : List Nat)
    (h : (decode stdin hdr0).exit = Exit.accepted) :
    (main K P stdin hdr0).calls = pipeline P ∧
    (main K P stdin hdr0).calls.length = 11 ∧
    (main K P stdin hdr0).calls.map Call.stage =
      [Stage.conv, Stage.relu, Stage.maxpool, Stage.conv, Stage.relu, Stage.maxpool,
       Stage.conv, Stage.relu, Stage.maxpool, Stage.fullyConnected, Stage.softmax] := by
  rw [main_calls_of_accepted K P stdin hdr0 h]
  exact ⟨rfl, rfl, rfl⟩

theorem C8_call_order_witness :
    (decode (bmpHeader 15 ++ [9, 200, 201, 202]) (List.replicate 14 0)).exit = Exit.accepted ∧
    (main idleKernels sampleParams (bmpHeader 15 ++ [9, 200, 201, 202])
        (List.replicate 14 0)).calls.map Call.stage =
      [Stage.conv, Stage.relu, Stage.maxpool, Stage.conv, Stage.relu, Stage.maxpool,
       Stage.conv, Stage.relu, Stage.maxpool, Stage.fullyConnected, Stage.softmax] :=
  ⟨by decide, (C8_call_order idleKernels sampleParams (bmpHeader 15 ++ [9, 200, 201, 202])
    (List.replicate 14 0) (by decide)).2.2⟩

/-- C9: the printer writes ten lines, label, colon, blank, signed decimal score, in
class-index order, and leaves the buffers as the last library call left them. -/
theorem C9_score_lines (K : Kernels) (P : Params) (stdin hdr0 : List Nat) (out : List Int) :
    printLoop out 10 0 [] =
      ["airplane: " ++ toString (out.getD 0 0) ++ "\n",
       "automobile: " ++ toString (out.getD 1 0) ++ "\n",
       "bird: " ++ toString (out.getD 2 0) ++ "\n",
       "cat: " ++ toString (out.getD 3 0) ++ "\n",
       "deer: " ++ toString (out.getD 4 0) ++ "\n",
       "dog: " ++ toString (out.getD 5 0) ++ "\n",
       "frog: " ++ toString (out.getD 6 0) ++ "\n",
       "horse: " ++ toString (out.getD 7 0) ++ "\n",
       "ship: " ++ toString (out.getD 8 0) ++ "\n",
       "truck: " ++ toString (out.getD 9 0) ++ "\n"] ∧
    (printLoop out 10 0 []).length = 10 ∧
    (main K P stdin hdr0).memory = (main K P stdin hdr0).afterCalls ∧
    ((main K P stdin hdr0).stdout = [] ∨
      (main K P stdin hdr0).stdout
        = printLoop (main K P stdin hdr0).memory.output_data 10 0 []) := by
  refine ⟨?_, ?_, ?_, ?_⟩
  · rw [printLoop_ten]
    rfl
  · rw [printLoop_ten]
    rfl
  · by_cases h : (decode stdin hdr0).exit = Exit.accepted
    · rw [main_accepted K P stdin hdr0 h]
    · rw [main_rejected K P stdin hdr0 h]
  · by_cases h : (decode stdin hdr0).exit = Exit.accepted
    · right
      rw [main_accepted K P stdin hdr0 h]
    · left
      rw [main_rejected K P stdin hdr0 h]

/-- C10: with 5×5 kernels and at most 32 input channels every stage that is handed
`col_buffer` needs no more than its 3200 bytes, each convolution is handed `col_buffer`,
and when the fully-connected input fits `img_buffer2` no stage that is handed a
workspace needs more than the buffer holds. -/
theorem C10_workspace_fits (P : Params)
    (hk1 : P.CONV1_KER_DIM = 5) (hk2 : P.CONV2_KER_DIM = 5) (hk3 : P.CONV3_KER_DIM = 5)
    (hc2 : P.CONV2_IM_CH ≤ 32) (hc3 : P.CONV3_IM_CH ≤ 32) :
    CONV1_IM_CH ≤ 32 ∧ COL_BYTES = 3200 ∧
    (∀ c ∈ pipeline P, c.stage = Stage.conv →
      c.workspace = Ptr.col_buffer ∧ c.workspaceNeed ≤ COL_BYTES) ∧
    (∀ c ∈ pipeline P, c.workspace = Ptr.col_buffer → c.workspaceNeed ≤ COL_BYTES) ∧
    (P.IP1_DIM ≤ SCRATCH_BYTES - img_buffer2 →
      ∀ c ∈ pipeline P, c.workspace ≠ Ptr.NULL → c.workspaceNeed ≤ c.workspace.capacity) := by
  have hcol : COL_BYTES = 3200 := by decide
  have hch : CONV1_IM_CH = 3 := rfl
  have hs : SCRATCH_BYTES - img_buffer2 = 8192 := by decide
  have hb1 : img_buffer1 = 0 := rfl
  have hb2 : img_buffer2 = 32768 := by decide
  refine ⟨by decide, hcol, ?_, ?_, ?_⟩
  · intro c hc hst
    simp only [pipeline, List.mem_cons, List.mem_singleton, List.not_mem_nil, or_false] at hc
    rcases hc with h | h | h | h | h | h | h | h | h | h | h <;> subst h <;>
      simp only [Call.stage, Call.workspace, Call.workspaceNeed, hk1, hk2, hk3, hcol, hch,
        reduceCtorEq, true_and] at hst ⊢ <;> omega
  · intro c hc hw
    simp only [pipeline, List.mem_cons, List.mem_singleton, List.not_mem_nil, or_false] at hc
    rcases hc with h | h | h | h | h | h | h | h | h | h | h <;> subst h <;>
      simp only [Call.workspace, Call.workspaceNeed, hk1, hk2, hk3, hcol, hch,
        reduceCtorEq] at hw ⊢ <;> omega
  · intro hip c hc hw
    rw [hs] at hip
    simp only [pipeline, List.mem_cons, List.mem_singleton, List.not_mem_nil, or_false] at hc
    rcases hc with h | h | h | h | h | h | h | h | h | h | h <;> subst h <;>
      simp only [Call.workspace, Call.workspaceNeed, Ptr.capacity, hk1, hk2, hk3, hcol, hch,
        hb1, hb2, reduceCtorEq, ne_eq, not_true_eq_false, not_false_eq_true, Nat.sub_zero,
        Nat.lt_irrefl, if_true, if_false, show (0 : Nat) < 32768 from by decide] at hw ⊢ <;>
      omega

theorem C10_workspace_fits_witness :
    sampleParams.CONV2_IM_CH ≤ 32 ∧
    (∀ c ∈ pipeline sampleParams, c.workspace = Ptr.col_buffer →
      c.workspaceNeed ≤ COL_BYTES) :=
  ⟨by decide, (C10_workspace_fits sampleParams rfl rfl rfl (by decide) (by decide)).2.2.2.1⟩

/-! # Lemmas for the later claims -/

/-! ## Network input of an accepted run -/

theorem main_input_of_accepted (K : Kernels) (P : Params) (stdin hdr0 : List Nat)
    (h : (decode stdin hdr0).exit = Exit.accepted) :
    (main K P stdin hdr0).input.scratch_buffer
      = preprocess (main K P stdin hdr0).image_data P.INPUT_MEAN_SHIFT P.INPUT_RIGHT_SHIFT
          (memory0 P).scratch_buffer := by
  rw [main_accepted K P stdin hdr0 h]

theorem memory0_scratch_length (P : Params) :
    (memory0 P).scratch_buffer.length = SCRATCH_BYTES :=
  List.length_replicate _ _

theorem main_image_of_accepted (K : Kernels) (P : Params) (stdin hdr0 : List Nat)
    (h : (decode stdin hdr0).exit = Exit.accepted) :
    (main K P stdin hdr0).image_data
      = swapChannels (decode stdin hdr0).rc (decode stdin hdr0).image_data := by
  rw [main_accepted K P stdin hdr0 h]

theorem preprocess_getD (image : List Nat) (mean_data : Fin 3 → Int)
    (scale_data : Fin 3 → Nat) (scratch : List Int) (k : Nat)
    (hlen : scratch.length = SCRATCH_BYTES) :
    (preprocess image mean_data scale_data scratch).getD k 0 =
      if img_buffer2 ≤ k ∧ k < img_buffer2 + 3072 then
        quantAt image mean_data scale_data (k - img_buffer2)
      else scratch.getD k 0 := by
  have hS : SCRATCH_BYTES = 40960 := by decide
  have hb : img_buffer2 = 32768 := by decide
  unfold preprocess
  rw [quantLoop_getD image mean_data scale_data (32 * 32 * 3) 0 scratch k rfl (by omega)
    (by omega)]
  rfl

/-- After a full read every triplet of the 3072-byte buffer has its outer bytes
exchanged. -/
theorem swapChannels_full (a : List Nat) (p : Nat) (hlen : a.length = 3072) (hp : p < 1024) :
    (swapChannels 3072 a).getD (3 * p) 0 = a.getD (3 * p + 2) 0 ∧
    (swapChannels 3072 a).getD (3 * p + 1) 0 = a.getD (3 * p + 1) 0 ∧
    (swapChannels 3072 a).getD (3 * p + 2) 0 = a.getD (3 * p) 0 := by
  have h3 : a.length % 3 = 0 := by rw [hlen]
  have hl : (3072 : Int) ≤ a.length := by rw [hlen]; decide
  rw [swapChannels_getD 3072 a _ h3 hl, swapChannels_getD 3072 a _ h3 hl,
    swapChannels_getD 3072 a _ h3 hl]
  refine ⟨?_, ?_, ?_⟩ <;> congr 1 <;> unfold swapIdx <;> split_ifs <;> omega

/-! ## Rounding and monotonicity of the quantizer -/

theorem SSAT8_mono (x y : Int) (h : x ≤ y) : SSAT8 x ≤ SSAT8 y := by
  unfold SSAT8; split_ifs <;> omega

theorem SSAT8_of_range (x : Int) (h1 : -128 ≤ x) (h2 : x ≤ 127) : SSAT8 x = x := by
  unfold SSAT8; split_ifs <;> omega

theorem SSAT8_interior (x : Int) (h1 : -128 < SSAT8 x) (h2 : SSAT8 x < 127) :
    SSAT8 x = x := by
  unfold SSAT8 at h1 h2 ⊢; split_ifs at h1 h2 ⊢ <;> omega

theorem pow_shift_double (s : Nat) (h1 : 1 ≤ s) : (2 : Int) ^ s = 2 * 2 ^ (s - 1) := by
  obtain ⟨k, rfl⟩ : ∃ k, s = k + 1 := ⟨s - 1, by omega⟩
  rw [Nat.add_sub_cancel, pow_succ]
  ring

/-- The unclamped quotient rounds `x / 2^s` to nearest, ties upwards. -/
theorem round_bounds (x : Int) (s : Nat) (h1 : 1 ≤ s) :
    ((x + 2 ^ (s - 1)) / 2 ^ s) * 2 ^ s - 2 ^ (s - 1) ≤ x ∧
    x < ((x + 2 ^ (s - 1)) / 2 ^ s) * 2 ^ s + 2 ^ (s - 1) := by
  have hd := pow_shift_double s h1
  have hpos : (0 : Int) < 2 ^ s := by positivity
  have e := Int.ediv_add_emod (x + 2 ^ (s - 1)) (2 ^ s)
  have r0 := Int.emod_nonneg (x + 2 ^ (s - 1)) (ne_of_gt hpos)
  have r1 := Int.emod_lt_of_pos (x + 2 ^ (s - 1)) hpos
  constructor
  · linarith
  · linarith

/-! ## The recorded swap loop -/

theorem swapLoopLog_data (rc : Int) (fuel : Nat) :
    ∀ (i : Nat) (st : SwapLog), (swapLoopLog rc fuel i st).data = swapLoop rc fuel i st.data := by
  induction fuel with
  | zero => intro i st; rfl
  | succ fuel ih =>
    intro i st
    unfold swapLoopLog swapLoop
    by_cases h : (i : Int) < rc
    · rw [if_pos h, if_pos h, ih]
    · rw [if_neg h, if_neg h]

theorem swapLoopLog_run (rc : Int) (fuel : Nat) :
    ∀ (i : Nat) (st : SwapLog), i % 3 = 0 → (rc.toNat + 2 - i) / 3 < fuel →
      (swapLoopLog rc fuel i st).finished = true ∧
      (swapLoopLog rc fuel i st).iterations = st.iterations + (rc.toNat + 2 - i) / 3 ∧
      (swapLoopLog rc fuel i st).accesses.length
        = st.accesses.length + 2 * ((rc.toNat + 2 - i) / 3) ∧
      (∀ k ∈ (swapLoopLog rc fuel i st).accesses,
        k ∈ st.accesses ∨ (k % 3 ≠ 1 ∧ ((k : Int) - (k % 3 : Nat)) < rc)) := by
  induction fuel with
  | zero => intro i st _ hf; omega
  | succ fuel ih =>
    intro i st hi hf
    unfold swapLoopLog
    by_cases h : (i : Int) < rc
    · rw [if_pos h]
      have hstep : (rc.toNat + 2 - i) / 3 = 1 + (rc.toNat + 2 - (i + 3)) / 3 := by omega
      obtain ⟨f1, f2, f3, f4⟩ := ih (i + 3)
        { data := swapStep st.data i, accesses := st.accesses ++ [i, i + 2],
          iterations := st.iterations + 1, finished := false } (by omega) (by omega)
      refine ⟨f1, ?_, ?_, ?_⟩
      · rw [f2, hstep]
        dsimp only
        omega
      · rw [f3, hstep]
        simp only [List.length_append, List.length_cons, List.length_nil]
        omega
      · intro k hk
        rcases f4 k hk with hmem | hnew
        · simp only [List.mem_append, List.mem_cons, List.mem_singleton, List.not_mem_nil,
            or_false] at hmem
          rcases hmem with hmem | rfl | rfl
          · exact Or.inl hmem
          · right; omega
          · right; omega
        · exact Or.inr hnew
    · rw [if_neg h]
      have hz : (rc.toNat + 2 - i) / 3 = 0 := by omega
      rw [hz]
      exact ⟨rfl, rfl, rfl, fun k hk => Or.inl hk⟩

theorem swapLoop_fuel (rc : Int) (fuel : Nat) (a : List Nat) (hf : rc ≤ 3 * (fuel : Int))
    (h3 : a.length % 3 = 0) (hlen : rc ≤ a.length) :
    swapLoop rc fuel 0 a = swapChannels rc a := by
  apply list_ext_getD
  · rw [swapLoop_length, swapChannels_length]
  · intro k
    rw [swapLoop_getD rc fuel 0 a k rfl (by omega) h3 hlen,
      swapChannels_getD rc a k h3 hlen]

/-! # The claims, continued -/

/-- C11, as stated, fails: the part of `scratch_buffer` that `img_buffer1` has to itself
(up to where `img_buffer2` starts) and the part left for `img_buffer2` differ in
size. -/
theorem C11_buffers_differ :
    (Ptr.scratch img_buffer1).capacity ≠ (Ptr.scratch img_buffer2).capacity := by
  decide

/-- C11, amended: `img_buffer1` starts at element 0 and has 32 * 32 * 32 = 32768
elements before `img_buffer2` starts; `img_buffer2` has the remaining 8192 elements of
the 32 * 32 * 10 * 4-element arena; the two parts do not overlap, fill the arena, and the
first is four times the second. -/
theorem C11_buffer_sizes :
    img_buffer1 = 0 ∧ img_buffer2 = 32 * 32 * 32 ∧ SCRATCH_BYTES = 32 * 32 * 10 * 4 ∧
    (Ptr.scratch img_buffer1).capacity = 32768 ∧
    (Ptr.scratch img_buffer2).capacity = 8192 ∧
    img_buffer1 + (Ptr.scratch img_buffer1).capacity = img_buffer2 ∧
    img_buffer2 + (Ptr.scratch img_buffer2).capacity = SCRATCH_BYTES ∧
    (Ptr.scratch img_buffer1).capacity = 4 * (Ptr.scratch img_buffer2).capacity := by
  decide

/-- C12, as stated, fails: with the roles starting as the preprocessor leaves them
(`img_buffer2` read, `img_buffer1` written) the calls do not all follow the ping-pong
discipline with `col_buffer` as scratch (the buffer arguments are the same for every
layer configuration); the first pooling call is handed `NULL` and the fully-connected
call writes `output_data` with `img_buffer1` as scratch. -/
theorem C12_not_uniform :
    pingPong (Ptr.scratch img_buffer2) (Ptr.scratch img_buffer1) (pipeline sampleParams)
      = false ∧
    ((pipeline sampleParams).filter Call.moves).length = 7 ∧
    (∃ c ∈ pipeline sampleParams, c.stage = Stage.maxpool ∧ c.workspace = Ptr.NULL) ∧
    (∃ c ∈ pipeline sampleParams, c.stage = Stage.fullyConnected ∧
      c.output = Ptr.output_data ∧ c.workspace = Ptr.scratch img_buffer1) := by
  decide

/-- C12, amended: the six convolution and pooling stages read the current read buffer
and write the other activation buffer, the roles flipping after each; the three
convolutions and the second and third pooling are handed `col_buffer`, the first pooling
`NULL`; the fully-connected stage reads the current read buffer `img_buffer2`, writes
`output_data` and is handed `img_buffer1` as scratch. -/
theorem C12_buffer_roles (P : Params) :
    ((pipeline P).filter Call.moves).map (fun c => (c.stage, c.input, c.output, c.workspace))
      = [(Stage.conv, Ptr.scratch img_buffer2, Ptr.scratch img_buffer1, Ptr.col_buffer),
         (Stage.maxpool, Ptr.scratch img_buffer1, Ptr.scratch img_buffer2, Ptr.NULL),
         (Stage.conv, Ptr.scratch img_buffer2, Ptr.scratch img_buffer1, Ptr.col_buffer),
         (Stage.maxpool, Ptr.scratch img_buffer1, Ptr.scratch img_buffer2, Ptr.col_buffer),
         (Stage.conv, Ptr.scratch img_buffer2, Ptr.scratch img_buffer1, Ptr.col_buffer),
         (Stage.maxpool, Ptr.scratch img_buffer1, Ptr.scratch img_buffer2, Ptr.col_buffer),
         (Stage.fullyConnected, Ptr.scratch img_buffer2, Ptr.output_data,
           Ptr.scratch img_buffer1)] := by
  rfl

/-- C13: in an accepted run the preprocessor stores the quantized image at `img_buffer2`,
which the first convolution reads as its 32×32×3 input; every later call reads the
buffer the call before it wrote; each ReLU call is made on the buffer its convolution
wrote, over that convolution's `OUT_DIM * OUT_DIM * OUT_CH` elements, and the pooling
call after it reads that same buffer; softmax writes `output_data`, which is what the
printer prints. -/
theorem C13_data_flow (K : Kernels) (P : Params) (stdin hdr0 : List Nat)
    (h : (decode stdin hdr0).exit = Exit.accepted) :
    (main K P stdin hdr0).calls = pipeline P ∧
    (∀ j, j < 3072 →
      (main K P stdin hdr0).input.scratch_buffer.getD (img_buffer2 + j) 0
        = quantAt (main K P stdin hdr0).image_data P.INPUT_MEAN_SHIFT P.INPUT_RIGHT_SHIFT j) ∧
    (pipeline P).head? = some (Call.arm_convolve_HWC_q7_RGB (Ptr.scratch img_buffer2)
      CONV1_IM_DIM CONV1_IM_CH Ptr.conv1_wt P.CONV1_OUT_CH P.CONV1_KER_DIM P.CONV1_PADDING
      P.CONV1_STRIDE Ptr.conv1_bias P.CONV1_BIAS_LSHIFT P.CONV1_OUT_RSHIFT
      (Ptr.scratch img_buffer1) P.CONV1_OUT_DIM Ptr.col_buffer Ptr.NULL) ∧
    CONV1_IM_DIM * CONV1_IM_DIM * CONV1_IM_CH = 3072 ∧
    ((pipeline P).map Call.input).tail = ((pipeline P).map Call.output).dropLast ∧
    (∀ i conv next, (pipeline P)[i]? = some conv → conv.stage = Stage.conv →
      (pipeline P)[i + 1]? = some next →
      next = Call.arm_relu_q7 conv.output conv.outElems) ∧
    (∀ i relu next, (pipeline P)[i]? = some relu → relu.stage = Stage.relu →
      (pipeline P)[i + 1]? = some next →
      next.stage = Stage.maxpool ∧ next.input = relu.output) ∧
    ((pipeline P).getLast?.map Call.output = some Ptr.output_data ∧
      (pipeline P).getLast?.map Call.stage = some Stage.softmax) ∧
    (main K P stdin hdr0).stdout
      = (List.range 10).map (printfLine (main K P stdin hdr0).afterCalls.output_data) := by
  refine ⟨main_calls_of_accepted K P stdin hdr0 h, ?_, rfl, by decide, rfl, ?_, ?_,
    ⟨rfl, rfl⟩, main_stdout_of_accepted K P stdin hdr0 h⟩
  · intro j hj
    rw [main_input_of_accepted K P stdin hdr0 h,
      preprocess_getD _ _ _ _ _ (memory0_scratch_length P), if_pos (by omega),
      Nat.add_sub_cancel_left]
  · intro i conv next hc hst hn
    have hi : i < 11 := by
      rcases Nat.lt_or_ge i 11 with hlt | hge
      · exact hlt
      · rw [List.getElem?_eq_none (by simpa [pipeline] using hge)] at hc
        cases hc
    interval_cases i <;> simp [pipeline] at hc hn <;> subst hc <;> subst hn <;>
      first
      | rfl
      | exact absurd hst (by simp [Call.stage])
  · intro i relu next hc hst hn
    have hi : i < 11 := by
      rcases Nat.lt_or_ge i 11 with hlt | hge
      · exact hlt
      · rw [List.getElem?_eq_none (by simpa [pipeline] using hge)] at hc
        cases hc
    interval_cases i <;> simp [pipeline] at hc hn <;> subst hc <;> try subst hn
    all_goals
      first
      | exact ⟨rfl, rfl⟩
      | exact absurd hst (by simp [Call.stage])

theorem C13_data_flow_witness :
    (decode (bmpHeader 15 ++ [9, 200, 201, 202]) (List.replicate 14 0)).exit = Exit.accepted ∧
    (main idleKernels sampleParams (bmpHeader 15 ++ [9, 200, 201, 202])
        (List.replicate 14 0)).calls = pipeline sampleParams :=
  ⟨by decide, (C13_data_flow idleKernels sampleParams (bmpHeader 15 ++ [9, 200, 201, 202])
    (List.replicate 14 0) (by decide)).1⟩

/-- C14 fails on the code: for the 21-byte stream with data offset 20, six skipped bytes
1..6 and the single pixel byte 7, decoding succeeds with `rc = 1`; the swap loop then
exchanges bytes 0 and 2 only, so pixel 1 keeps its bytes 3 and 5 where the decoder left
them (4 and 6) instead of having them exchanged. -/
theorem C14_short_image_partly_swapped :
    (decode (bmpHeader 20 ++ [1, 2, 3, 4, 5, 6, 7]) (List.replicate 14 0)).exit
      = Exit.accepted ∧
    (decode (bmpHeader 20 ++ [1, 2, 3, 4, 5, 6, 7]) (List.replicate 14 0)).rc = 1 ∧
    (decode (bmpHeader 20 ++ [1, 2, 3, 4, 5, 6, 7]) (List.replicate 14 0)).image_data.take 6
      = [7, 2, 3, 4, 5, 6] ∧
    (main idleKernels sampleParams (bmpHeader 20 ++ [1, 2, 3, 4, 5, 6, 7])
      (List.replicate 14 0)).image_data.take 6 = [3, 2, 7, 4, 5, 6] ∧
    (main idleKernels sampleParams (bmpHeader 20 ++ [1, 2, 3, 4, 5, 6, 7])
        (List.replicate 14 0)).image_data.getD (3 * 1) 0
      ≠ (decode (bmpHeader 20 ++ [1, 2, 3, 4, 5, 6, 7])
        (List.replicate 14 0)).image_data.getD (3 * 1 + 2) 0 := by
  have h : (decode (bmpHeader 20 ++ [1, 2, 3, 4, 5, 6, 7]) (List.replicate 14 0)).exit
      = Exit.accepted := by decide
  rw [main_image_of_accepted _ _ _ _ h]
  refine ⟨h, by decide, by decide, by decide, by decide⟩

/-- C15: for a raw byte and a mean in 0..255 and a shift in 1..31, when the quotient is
not clamped the stored value `q` is `(r - m) * 128 / 2^s` rounded to nearest with ties
upwards: `q * 2^s - 2^(s-1) ≤ (r - m) * 128 < q * 2^s + 2^(s-1)`, whatever the sign of
`r - m`. -/
theorem C15_round_to_nearest (r : Nat) (m : Int) (s : Nat) (hr : r ≤ 255) (hm0 : 0 ≤ m)
    (hm : m ≤ 255) (hs1 : 1 ≤ s) (hs : s ≤ 31) :
    ((-128 ≤ Int.fdiv (((r : Int) - m) * 128 + 2 ^ (s - 1)) (2 ^ s) ∧
        Int.fdiv (((r : Int) - m) * 128 + 2 ^ (s - 1)) (2 ^ s) ≤ 127) →
      quantize r m s * 2 ^ s - 2 ^ (s - 1) ≤ ((r : Int) - m) * 128 ∧
      ((r : Int) - m) * 128 < quantize r m s * 2 ^ s + 2 ^ (s - 1)) ∧
    ((-128 < quantize r m s ∧ quantize r m s < 127) →
      quantize r m s * 2 ^ s - 2 ^ (s - 1) ≤ ((r : Int) - m) * 128 ∧
      ((r : Int) - m) * 128 < quantize r m s * 2 ^ s + 2 ^ (s - 1)) := by
  have hq := quantize_eq r m s hr hm0 hm hs1 hs
  have hf : Int.fdiv (((r : Int) - m) * 128 + 2 ^ (s - 1)) (2 ^ s)
      = (((r : Int) - m) * 128 + 2 ^ (s - 1)) / 2 ^ s :=
    Int.fdiv_eq_ediv _ (by positivity)
  have hb := round_bounds (((r : Int) - m) * 128) s hs1
  constructor
  · rintro ⟨h1, h2⟩
    rw [hf] at h1 h2
    rw [hq, SSAT8_of_range _ h1 h2]
    exact hb
  · rintro ⟨h1, h2⟩
    rw [hq] at h1 h2 ⊢
    rw [SSAT8_interior _ h1 h2]
    exact hb

theorem C15_round_to_nearest_witness :
    (-128 < quantize 120 125 8 ∧ quantize 120 125 8 < 127) ∧
    (quantize 120 125 8 * 2 ^ 8 - 2 ^ (8 - 1) ≤ (((120 : Nat) : Int) - 125) * 128 ∧
      (((120 : Nat) : Int) - 125) * 128 < quantize 120 125 8 * 2 ^ 8 + 2 ^ (8 - 1)) :=
  ⟨by decide,
   (C15_round_to_nearest 120 125 8 (by decide) (by decide) (by decide) (by decide)
    (by decide)).2 (by decide)⟩

/-- C16 fails on the code: for a stream with magic `BM`, data offset 3087, 3073 skipped
bytes and one pixel byte, decoding succeeds although the skip read stored 3073 bytes at
the 3072-byte `image_data`. -/
theorem C16_skip_overruns :
    bfOffBits (bmpHeader2 15 12 ++ List.replicate 3073 1 ++ [2]) = 3087 ∧
    (bmpHeader2 15 12 ++ List.replicate 3073 1 ++ [2]).length = 3087 + 1 ∧
    (decode (bmpHeader2 15 12 ++ List.replicate 3073 1 ++ [2]) (List.replicate 14 0)).exit
      = Exit.accepted ∧
    (decode (bmpHeader2 15 12 ++ List.replicate 3073 1 ++ [2])
      (List.replicate 14 0)).skipStored = 3073 ∧
    IMAGE_BYTES < (decode (bmpHeader2 15 12 ++ List.replicate 3073 1 ++ [2])
      (List.replicate 14 0)).skipStored := by
  have hoff : bfOffBits (bmpHeader2 15 12 ++ List.replicate 3073 1 ++ [2]) = 3087 := by
    decide
  have hlen : (bmpHeader2 15 12 ++ List.replicate 3073 1 ++ [2]).length = 3088 := by
    rw [List.length_append, List.length_append, List.length_replicate]
    rfl
  have hcount : toUInt32 (((3087 : Nat) : Int) - 14) = 3073 := by decide
  have hsk : (skipBytes (bmpHeader2 15 12 ++ List.replicate 3073 1 ++ [2])).length
      = 3073 := by
    rw [skipBytes_length, hoff, hcount, hlen]
    decide
  have hpx : (pixelBytes (bmpHeader2 15 12 ++ List.replicate 3073 1 ++ [2])).length = 1 := by
    rw [pixelBytes_length, hsk, hlen]
    decide
  have hd := decode_accepted (bmpHeader2 15 12 ++ List.replicate 3073 1 ++ [2])
    (List.replicate 14 0) (by rw [hlen]; decide) (by decide) (by decide)
    (by rw [hsk]; decide) (by rw [hsk, hoff]; decide) (by rw [hpx]; decide)
  rw [hd]
  dsimp only
  rw [hsk]
  exact ⟨hoff, hlen, rfl, rfl, by decide⟩

/-- C17: on the 3072-byte `image_data`, for a read length between 1 and 3072 (multiple of
3 or not), the swap loop leaves through its condition after `⌈rc / 3⌉` iterations, makes
two accesses per iteration, every index it reads or writes is below 3072, and what it
leaves in the buffer is what `main` goes on with. -/
theorem C17_swap_in_bounds (a : List Nat) (rc : Int) (fuel : Nat) (hlen : a.length = 3072)
    (h1 : 1 ≤ rc) (h2 : rc ≤ 3072) (hfuel : (rc.toNat + 2) / 3 < fuel) :
    (swapLoopLog rc fuel 0 ⟨a, [], 0, false⟩).finished = true ∧
    (swapLoopLog rc fuel 0 ⟨a, [], 0, false⟩).iterations = (rc.toNat + 2) / 3 ∧
    (swapLoopLog rc fuel 0 ⟨a, [], 0, false⟩).accesses.length = 2 * ((rc.toNat + 2) / 3) ∧
    (∀ k ∈ (swapLoopLog rc fuel 0 ⟨a, [], 0, false⟩).accesses, k < 3072) ∧
    (swapLoopLog rc fuel 0 ⟨a, [], 0, false⟩).data = swapChannels rc a := by
  obtain ⟨f1, f2, f3, f4⟩ := swapLoopLog_run rc fuel 0 ⟨a, [], 0, false⟩ rfl (by omega)
  refine ⟨f1, ?_, ?_, ?_, ?_⟩
  · rw [f2]; simp
  · rw [f3]; simp
  · intro k hk
    rcases f4 k hk with hmem | hnew
    · simp at hmem
    · omega
  · rw [swapLoopLog_data]
    exact swapLoop_fuel rc fuel a (by omega) (by rw [hlen]) (by rw [hlen]; exact_mod_cast h2)

theorem C17_swap_in_bounds_witness :
    (swapLoopLog 4 3 0 ⟨List.replicate 3072 5, [], 0, false⟩).iterations = (4 + 2) / 3 ∧
    (∀ k ∈ (swapLoopLog 4 3 0 ⟨List.replicate 3072 5, [], 0, false⟩).accesses, k < 3072) :=
  have w := C17_swap_in_bounds (List.replicate 3072 5) 4 3 (List.length_replicate 3072 5)
    (by decide) (by decide) (by decide)
  ⟨w.2.1, w.2.2.2.1⟩

/-- C18: for a mean in 0..255 and a shift in 1..31 the quantizer is monotone in the raw
byte: `r1 ≤ r2 ≤ 255` gives `quantize r1 m s ≤ quantize r2 m s`. -/
theorem C18_quantize_monotone (r1 r2 : Nat) (m : Int) (s : Nat) (h12 : r1 ≤ r2)
    (hr : r2 ≤ 255) (hm0 : 0 ≤ m) (hm : m ≤ 255) (hs1 : 1 ≤ s) (hs : s ≤ 31) :
    quantize r1 m s ≤ quantize r2 m s := by
  rw [quantize_eq r1 m s (by omega) hm0 hm hs1 hs, quantize_eq r2 m s hr hm0 hm hs1 hs]
  apply SSAT8_mono
  apply Int.ediv_le_ediv (by positivity)
  have : (r1 : Int) ≤ r2 := by exact_mod_cast h12
  linarith

theorem C18_quantize_monotone_witness : quantize 100 125 8 ≤ quantize 200 125 8 :=
  C18_quantize_monotone 100 200 125 8 (by decide) (by decide) (by decide) (by decide)
    (by decide) (by decide)

end Cifar10
